import Mathlib

/-!
# RedisShake: option validation and process start-up (`redis-shake/main/main.go`)

A shallow embedding of `sanitizeOptions`, `main`, `startHttpServer`, `crash` and
`handleExit`.  The package-level variables the Go code mutates (`conf.Options`,
`base.AcceptDB`, the logger configuration, `GOMAXPROCS`) are gathered in an explicit
`State`; calls that leave the process (`utils.GetRedisVersion`) are recorded in the state.
Go `int`/`uint` option values are modelled by `Int`: the code only compares and assigns
them, so no machine arithmetic is lost; the two places that compute with fixed widths
(`uint32(n)` and `time.Duration`) reduce explicitly.

`main` calls `SanitizeOptions(*tp)` (line 83), a name that no source file at hand declares;
the call is a field of `MainEnv`, and what `main` does is stated for every function it may
resolve to, `sanitizeOptions` (line 171) among them.  `go startHttpServer()` starts a second
goroutine: a run of `main` records the main goroutine's steps and end and, beside them, the
run of `startHttpServer` on the globals at the `go` statement.
-/

namespace RedisShake

/-! ## Go standard library: `strconv`, `strings` -/

/-- The two error kinds of Go `strconv.NumError`: `ErrSyntax` and `ErrRange`. -/
inductive NumErr where
  | invalidSyntax
  | outOfRange
  deriving DecidableEq, Repr

/-- Value of a decimal digit byte; `none` for every other byte (base 10 digit test of
`strconv.ParseUint`). -/
def digitVal (c : Char) : Option Nat :=
  if 48 ≤ c.toNat ∧ c.toNat ≤ 57 then some (c.toNat - 48) else none

/-- The digit loop of `strconv.ParseUint(s, 10, bitSize)` with `maxVal = 2^bitSize - 1`:
a non-digit is a syntax error, a value above `maxVal` a range error, reported as soon as
it is met. -/
def parseUintLoop (maxVal : Nat) : List Char → Nat → Except NumErr Nat
  | [], n => .ok n
  | c :: cs, n =>
    match digitVal c with
    | none => .error .invalidSyntax
    | some d =>
      if n * 10 + d > maxVal then .error .outOfRange
      else parseUintLoop maxVal cs (n * 10 + d)

/-- Go `strconv.ParseUint(s, 10, bitSize)` on the bytes of `s`. -/
def parseUint (cs : List Char) (bitSize : Nat) : Except NumErr Nat :=
  match cs with
  | [] => .error .invalidSyntax
  | _ => parseUintLoop (2 ^ bitSize - 1) cs 0

/-- Go `strconv.ParseInt(s, 10, bitSize)`: optional sign, then `ParseUint`, then the
signed range check against `cutoff = 2^(bitSize-1)`. -/
def parseInt (s : String) (bitSize : Nat) : Except NumErr Int :=
  match s.toList with
  | [] => .error .invalidSyntax
  | c :: cs =>
    let neg : Bool := c = '-'
    let body : List Char := if c = '+' ∨ c = '-' then cs else c :: cs
    match parseUint body bitSize with
    | .error .invalidSyntax => .error .invalidSyntax
    | .error .outOfRange => .error .outOfRange
    | .ok un =>
      let cutoff : Nat := 2 ^ (bitSize - 1)
      if neg = false ∧ un ≥ cutoff then .error .outOfRange
      else if neg = true ∧ un > cutoff then .error .outOfRange
      else .ok (if neg then -(un : Int) else (un : Int))

/-- Go `strconv.Atoi(s)` on a 64-bit platform: the result of `ParseInt(s, 10, 0)`. -/
def atoi (s : String) : Except NumErr Int :=
  parseInt s 64

/-- Go `strings.HasPrefix(s, p)`. -/
def startsWith (s p : String) : Bool :=
  p.toList.isPrefixOf s.toList

/-- Conversion of a Go `int64` to `uint32`: the value modulo `2^32`. -/
def toUint32 (n : Int) : Nat :=
  (n % 4294967296).toNat

/-- Wrap-around of Go `int64` arithmetic (used for `time.Duration` values). -/
def wrapInt64 (n : Int) : Int :=
  (n + 9223372036854775808) % 18446744073709551616 - 9223372036854775808

/-! ## Data model -/

/-- The fields of `conf.Options` that `main.go` reads or writes. -/
structure Configuration where
  Id : String
  LogFile : String
  LogLevel : String
  SystemProfile : Int
  HttpProfile : Int
  NCpu : Int
  Parallel : Int
  SourceAddress : String
  SourcePasswordRaw : String
  SourcePasswordEncoding : String
  TargetAddress : String
  TargetPasswordRaw : String
  TargetPasswordEncoding : String
  TargetAuthType : String
  TargetDBString : String
  TargetDB : Int
  FakeTime : String
  ShiftTime : Int
  FilterDB : String
  FilterSlot : List String
  BigKeyThreshold : Int
  HeartbeatInterval : Int
  HeartbeatNetworkInterface : String
  HeartbeatIp : String
  SenderSize : Int
  SenderCount : Int
  SenderDelayChannelSize : Int
  ScanKeyNumber : Int
  ScanSpecialCloud : String
  ScanKeyFile : String
  TargetRedisVersion : String
  TargetReplace : Bool
  PidPath : String
  Version : String
  /-- Field `conf.Options.Type` (`Type` is reserved in Lean). -/
  RunType : String

/-- Levels of the logging package selected by `conf.Options.LogLevel`. -/
inductive LogLevel where
  | LEVEL_NONE
  | LEVEL_ERROR
  | LEVEL_WARN
  | LEVEL_INFO
  | LEVEL_DEBUG
  deriving DecidableEq, Repr

/-- One call of `utils.GetRedisVersion(address, authType, password)`. -/
structure NetCall where
  address : String
  authType : String
  password : String
  deriving DecidableEq, Repr

/-- The process globals touched by `sanitizeOptions`: `conf.Options`, `base.AcceptDB`
(a predicate on `uint32` database indices), `utils.LogRotater` (the log file name when
set), the log level, the `GOMAXPROCS` setting, and the list of network calls made so far
(most recent first). -/
structure State where
  Options : Configuration
  AcceptDB : Nat → Bool
  LogRotater : Option String
  logLevel : LogLevel
  maxProcs : Int
  netCalls : List NetCall

/-- What `sanitizeOptions` needs from outside `main.go`: constants declared in other
packages and functions of the platform. -/
structure Env where
  /-- Constant `utils.MB`. -/
  MB : Int
  /-- Function `runtime.NumCPU()`. -/
  NumCPU : Int
  /-- Constants `utils.LogLevelNone` … `utils.LogLevelAll`. -/
  LogLevelNone : String
  LogLevelError : String
  LogLevelWarn : String
  LogLevelInfo : String
  LogLevelAll : String
  /-- Constants `scanner.TencentCluster`, `scanner.AliyunCluster`. -/
  TencentCluster : String
  AliyunCluster : String
  /-- Function `utils.GetLocalIp` on a single preferred interface: the address it returns and
  its error, if any. -/
  GetLocalIp : String → String × Option String
  /-- Function `strings.ToLower`. -/
  ToLower : String → String
  /-- Function `time.ParseDuration`, result in nanoseconds. -/
  ParseDuration : String → Except String Int
  /-- Function `time.Parse` with layout `2006-01-02 15:04:05`, result as `UnixNano`. -/
  ParseTime : String → Except String Int
  /-- Value of `time.Now().UnixNano()`. -/
  NowUnixNano : Int
  /-- Function `utils.GetRedisVersion(address, authType, password)`: the version string it
  returns and its error, if any. -/
  GetRedisVersion : String → String → String → String × Option String

/-- Modelled from the spec: the run-type constants `conf.TypeDecode`, `conf.TypeRestore`,
`conf.TypeDump`, `conf.TypeSync`, `conf.TypeRump` are declared in package `conf`; their
values are the run modes of §6 and of the `-type` flag help text in `main`. -/
def TypeDecode : String := "decode"

/-- Modelled from the spec: see `TypeDecode`. -/
def TypeRestore : String := "restore"

/-- Modelled from the spec: see `TypeDecode`. -/
def TypeDump : String := "dump"

/-- Modelled from the spec: see `TypeDecode`. -/
def TypeSync : String := "sync"

/-- Modelled from the spec: see `TypeDecode`. -/
def TypeRump : String := "rump"

def defaultHttpPort : Int := 9320

def defaultSystemPort : Int := 9310

def defaultSenderSize : Int := 65535

def defaultSenderCount : Int := 1024

/-- The `return fmt.Errorf(...)` sites of `sanitizeOptions`, in source order, each with the
values its message formats. -/
inductive SanitizeError where
  /-- Message `unknown type[%v]`. -/
  | unknownType (tp : String)
  /-- Message `id shoudn't be empty`. -/
  | emptyId
  /-- Message `invalid ncpu[%v]`. -/
  | invalidNCpu (v : Int)
  /-- Message `parallel[%v] should in (0, 1024]`. -/
  | parallelRange (v : Int)
  /-- Message `BigKeyThreshold[%v] should <= 500 MB`. -/
  | bigKeyThreshold (v : Int)
  /-- Message `target address shouldn't be empty when type in {restore, sync}`. -/
  | targetAddressEmpty
  /-- Message `source address shouldn't be empty when type in {dump, sync}`. -/
  | sourceAddressEmpty
  /-- Message `source and target address shouldn't be empty when type in {rump}`. -/
  | rumpAddressEmpty
  /-- Message `only one of source password_raw or password_encoding should be given`. -/
  | sourcePassword
  /-- Message `only one of target password_raw or password_encoding should be given`. -/
  | targetPassword
  /-- Message `invalid log level[%v]`. -/
  | invalidLogLevel (v : String)
  /-- Message `HeartbeatInterval[%v] should in [0, 86400]`. -/
  | heartbeatInterval (v : Int)
  /-- Message `get ip failed[%v]`. -/
  | getIpFailed (e : String)
  /-- Message `parse fake_time failed[%v]` (duration or layout error). -/
  | parseFakeTime (e : String)
  /-- Message `parse fake_time failed[%v]` (integer after `@`). -/
  | parseFakeTimeInt (e : NumErr)
  /-- Message `parse FilterDB failed[%v]`. -/
  | parseFilterDB (e : NumErr)
  /-- Message `parse FilterSlot with index[%v] failed[%v]`. -/
  | parseFilterSlot (i : Nat) (e : NumErr)
  /-- Message `parse target.db[%v] failed[%v]`. -/
  | parseTargetDB (v : String) (e : NumErr)
  /-- Message `HttpProfile[%v] should in [0, 65535]`. -/
  | httpProfile (v : Int)
  /-- Message `SystemProfile[%v] should in [0, 65535]`. -/
  | systemProfile (v : Int)
  /-- Message `SenderSize[%v] should in [0, 1073741824]`. -/
  | senderSize (v : Int)
  /-- Message `SenderCount[%v] should in [0, 100000]`. -/
  | senderCount (v : Int)
  /-- Message `get target redis version failed[%v]`. -/
  | getVersionFailed (e : String)
  /-- Message `special cloud type[%s] is not supported`. -/
  | specialCloud (v : String)
  /-- Message `scan.special_cloud[%v] and scan.key_file[%v] cann't be given at the same time`. -/
  | cloudAndKeyFile (cloud keyFile : String)
  deriving DecidableEq, Repr

/-- Result of running (part of) `sanitizeOptions`: the error returned (`none` for `nil`, or
for "not returned yet") and the globals as they stand at that point. -/
structure Outcome where
  err : Option SanitizeError
  st : State

/-! ## `sanitizeOptions`, block by block -/

/-- Lines 173-175: the run type must be one of the five known ones. -/
def checkType (tp : String) (s : State) : Outcome :=
  if tp ≠ TypeDecode ∧ tp ≠ TypeRestore ∧ tp ≠ TypeDump ∧ tp ≠ TypeSync ∧ tp ≠ TypeRump then
    ⟨some (.unknownType tp), s⟩
  else ⟨none, s⟩

/-- Lines 177-179. -/
def checkId (s : State) : Outcome :=
  if s.Options.Id = "" then ⟨some .emptyId, s⟩ else ⟨none, s⟩

/-- Lines 181-187: `NCpu` in `[0, 1024]`, then `runtime.GOMAXPROCS`. -/
def checkNCpu (env : Env) (s : State) : Outcome :=
  if s.Options.NCpu < 0 ∨ s.Options.NCpu > 1024 then
    ⟨some (.invalidNCpu s.Options.NCpu), s⟩
  else if s.Options.NCpu = 0 then ⟨none, { s with maxProcs := env.NumCPU }⟩
  else ⟨none, { s with maxProcs := s.Options.NCpu }⟩

/-- Lines 189-195.  `int(math.Max(float64(Parallel), float64(NCpu)))` is the integer
maximum here: the block runs with `0 ≤ NCpu ≤ 1024` and `Parallel ≤ 1024`, the conversion to
`float64` is monotone and exact on `[-1, 1024]`, so a negative `Parallel` converts to a
negative float and the maximum is `NCpu` itself. -/
def checkParallel (s : State) : Outcome :=
  if s.Options.Parallel = 0 then
    ⟨none, { s with Options := { s.Options with Parallel := 64 } }⟩
  else if s.Options.Parallel > 1024 then
    ⟨some (.parallelRange s.Options.Parallel), s⟩
  else
    ⟨none, { s with Options := { s.Options with Parallel := max s.Options.Parallel s.Options.NCpu } }⟩

/-- Lines 197-202. -/
def checkBigKeyThreshold (env : Env) (s : State) : Outcome :=
  if s.Options.BigKeyThreshold > 500 * env.MB then
    ⟨some (.bigKeyThreshold s.Options.BigKeyThreshold), s⟩
  else if s.Options.BigKeyThreshold = 0 then
    ⟨none, { s with Options := { s.Options with BigKeyThreshold := 50 * env.MB } }⟩
  else ⟨none, s⟩

/-- Lines 204-206. -/
def checkTargetAddress (tp : String) (s : State) : Outcome :=
  if (tp = TypeRestore ∨ tp = TypeSync) ∧ s.Options.TargetAddress = "" then
    ⟨some .targetAddressEmpty, s⟩
  else ⟨none, s⟩

/-- Lines 207-209. -/
def checkSourceAddress (tp : String) (s : State) : Outcome :=
  if (tp = TypeDump ∨ tp = TypeSync) ∧ s.Options.SourceAddress = "" then
    ⟨some .sourceAddressEmpty, s⟩
  else ⟨none, s⟩

/-- Lines 210-212. -/
def checkRumpAddress (tp : String) (s : State) : Outcome :=
  if tp = TypeRump ∧ (s.Options.SourceAddress = "" ∨ s.Options.TargetAddress = "") then
    ⟨some .rumpAddressEmpty, s⟩
  else ⟨none, s⟩

/-- Lines 214-219. -/
def checkSourcePassword (s : State) : Outcome :=
  if s.Options.SourcePasswordRaw ≠ "" ∧ s.Options.SourcePasswordEncoding ≠ "" then
    ⟨some .sourcePassword, s⟩
  else if s.Options.SourcePasswordEncoding ≠ "" then
    ⟨none, { s with Options := { s.Options with SourcePasswordRaw := "" } }⟩
  else ⟨none, s⟩

/-- Lines 221-226. -/
def checkTargetPassword (s : State) : Outcome :=
  if s.Options.TargetPasswordRaw ≠ "" ∧ s.Options.TargetPasswordEncoding ≠ "" then
    ⟨some .targetPassword, s⟩
  else if s.Options.TargetPasswordEncoding ≠ "" then
    ⟨none, { s with Options := { s.Options with TargetPasswordRaw := "" } }⟩
  else ⟨none, s⟩

/-- Lines 228-238: a log file name installs the rotating logger. -/
def setLogFile (s : State) : Outcome :=
  if s.Options.LogFile ≠ "" then ⟨none, { s with LogRotater := some s.Options.LogFile }⟩
  else ⟨none, s⟩

/-- Lines 240-257: the `switch` on `conf.Options.LogLevel`, cases in source order, then
`log.SetLevel`. -/
def setLogLevel (env : Env) (s : State) : Outcome :=
  if s.Options.LogLevel = env.LogLevelNone then ⟨none, { s with logLevel := .LEVEL_NONE }⟩
  else if s.Options.LogLevel = env.LogLevelError then ⟨none, { s with logLevel := .LEVEL_ERROR }⟩
  else if s.Options.LogLevel = env.LogLevelWarn then ⟨none, { s with logLevel := .LEVEL_WARN }⟩
  else if s.Options.LogLevel = "" ∨ s.Options.LogLevel = env.LogLevelInfo then
    ⟨none, { s with logLevel := .LEVEL_INFO }⟩
  else if s.Options.LogLevel = env.LogLevelAll then ⟨none, { s with logLevel := .LEVEL_DEBUG }⟩
  else ⟨some (.invalidLogLevel s.Options.LogLevel), s⟩

/-- Lines 259-264. -/
def checkHeartbeatInterval (s : State) : Outcome :=
  if s.Options.HeartbeatInterval > 86400 then
    ⟨some (.heartbeatInterval s.Options.HeartbeatInterval), s⟩
  else if s.Options.HeartbeatInterval = 0 then
    ⟨none, { s with Options := { s.Options with HeartbeatInterval := 10 } }⟩
  else ⟨none, s⟩

/-- Lines 266-273: `HeartbeatIp` receives what `utils.GetLocalIp` returns, also when it
returns an error. -/
def setHeartbeatIp (env : Env) (s : State) : Outcome :=
  if s.Options.HeartbeatNetworkInterface = "" then
    ⟨none, { s with Options := { s.Options with HeartbeatIp := "127.0.0.1" } }⟩
  else
    match (env.GetLocalIp s.Options.HeartbeatNetworkInterface).2 with
    | some e =>
      ⟨some (.getIpFailed e), { s with Options := { s.Options with
          HeartbeatIp := (env.GetLocalIp s.Options.HeartbeatNetworkInterface).1 } }⟩
    | none =>
      ⟨none, { s with Options := { s.Options with
          HeartbeatIp := (env.GetLocalIp s.Options.HeartbeatNetworkInterface).1 } }⟩

/-- Lines 275-296: `FakeTime` is a signed duration, `@` followed by milliseconds since the
epoch, or a date; `ShiftTime` is an `int64` number of nanoseconds. -/
def setFakeTime (env : Env) (s : State) : Outcome :=
  match s.Options.FakeTime.toList with
  | [] => ⟨none, s⟩
  | c :: rest =>
    if c = '-' ∨ c = '+' then
      match env.ParseDuration (env.ToLower s.Options.FakeTime) with
      | .error e => ⟨some (.parseFakeTime e), s⟩
      | .ok d => ⟨none, { s with Options := { s.Options with ShiftTime := d } }⟩
    else if c = '@' then
      match parseInt (String.mk rest) 64 with
      | .error e => ⟨some (.parseFakeTimeInt e), s⟩
      | .ok n =>
        ⟨none, { s with Options := { s.Options with
            ShiftTime := wrapInt64 (wrapInt64 (n * 1000000) - env.NowUnixNano) } }⟩
    else
      match env.ParseTime s.Options.FakeTime with
      | .error e => ⟨some (.parseFakeTime e), s⟩
      | .ok t =>
        ⟨none, { s with Options := { s.Options with ShiftTime := wrapInt64 (t - env.NowUnixNano) } }⟩

/-- Lines 298-306: a non-empty `FilterDB` is parsed as a 32-bit integer `n` and
`base.AcceptDB` becomes `db == uint32(n)`. -/
def setFilterDB (s : State) : Outcome :=
  if s.Options.FilterDB ≠ "" then
    match parseInt s.Options.FilterDB 32 with
    | .error e => ⟨some (.parseFilterDB e), s⟩
    | .ok n => ⟨none, { s with AcceptDB := fun db => decide (db = toUint32 n) }⟩
  else ⟨none, s⟩

/-- The loop of lines 309-313: index and error of the first entry `strconv.Atoi` rejects. -/
def firstBadSlot : List String → Nat → Option (Nat × NumErr)
  | [], _ => none
  | v :: vs, i =>
    match atoi v with
    | .error e => some (i, e)
    | .ok _ => firstBadSlot vs (i + 1)

/-- Lines 308-314. -/
def checkFilterSlot (s : State) : Outcome :=
  match firstBadSlot s.Options.FilterSlot 0 with
  | some (i, e) => ⟨some (.parseFilterSlot i e), s⟩
  | none => ⟨none, s⟩

/-- Lines 316-324. -/
def setTargetDB (s : State) : Outcome :=
  if s.Options.TargetDBString = "" then
    ⟨none, { s with Options := { s.Options with TargetDB := -1 } }⟩
  else
    match atoi s.Options.TargetDBString with
    | .error e => ⟨some (.parseTargetDB s.Options.TargetDBString e), s⟩
    | .ok v =>
      if v < 0 then ⟨none, { s with Options := { s.Options with TargetDB := -1 } }⟩
      else ⟨none, { s with Options := { s.Options with TargetDB := v } }⟩

/-- Lines 326-331. -/
def checkHttpProfile (s : State) : Outcome :=
  if s.Options.HttpProfile < 0 ∨ s.Options.HttpProfile > 65535 then
    ⟨some (.httpProfile s.Options.HttpProfile), s⟩
  else if s.Options.HttpProfile = 0 then
    ⟨none, { s with Options := { s.Options with HttpProfile := defaultHttpPort } }⟩
  else ⟨none, s⟩

/-- Lines 333-338. -/
def checkSystemProfile (s : State) : Outcome :=
  if s.Options.SystemProfile < 0 ∨ s.Options.SystemProfile > 65535 then
    ⟨some (.systemProfile s.Options.SystemProfile), s⟩
  else if s.Options.SystemProfile = 0 then
    ⟨none, { s with Options := { s.Options with SystemProfile := defaultSystemPort } }⟩
  else ⟨none, s⟩

/-- Lines 340-345. -/
def checkSenderSize (s : State) : Outcome :=
  if s.Options.SenderSize < 0 ∨ s.Options.SenderSize ≥ 1073741824 then
    ⟨some (.senderSize s.Options.SenderSize), s⟩
  else if s.Options.SenderSize = 0 then
    ⟨none, { s with Options := { s.Options with SenderSize := defaultSenderSize } }⟩
  else ⟨none, s⟩

/-- Lines 347-352. -/
def checkSenderCount (s : State) : Outcome :=
  if s.Options.SenderCount < 0 ∨ s.Options.SenderCount ≥ 100000 then
    ⟨some (.senderCount s.Options.SenderCount), s⟩
  else if s.Options.SenderCount = 0 then
    ⟨none, { s with Options := { s.Options with SenderCount := defaultSenderCount } }⟩
  else ⟨none, s⟩

/-- Lines 354-356. -/
def setSenderDelayChannelSize (s : State) : Outcome :=
  if s.Options.SenderDelayChannelSize = 0 then
    ⟨none, { s with Options := { s.Options with SenderDelayChannelSize := 32 } }⟩
  else ⟨none, s⟩

/-- State right after the call of `utils.GetRedisVersion` at lines 360-361: the call is
recorded and `TargetRedisVersion` holds the returned string. -/
def afterVersionQuery (env : Env) (s : State) : State :=
  { s with
    Options := { s.Options with
      TargetRedisVersion :=
        (env.GetRedisVersion s.Options.TargetAddress s.Options.TargetAuthType
          s.Options.TargetPasswordRaw).1 }
    netCalls :=
      ⟨s.Options.TargetAddress, s.Options.TargetAuthType, s.Options.TargetPasswordRaw⟩
        :: s.netCalls }

/-- Lines 358-371: for `restore` and `sync` the target version is queried over the network
and decides `TargetReplace`. -/
def getTargetVersion (env : Env) (tp : String) (s : State) : Outcome :=
  if tp = TypeRestore ∨ tp = TypeSync then
    match (env.GetRedisVersion s.Options.TargetAddress s.Options.TargetAuthType
        s.Options.TargetPasswordRaw).2 with
    | some e => ⟨some (.getVersionFailed e), afterVersionQuery env s⟩
    | none =>
      if startsWith (afterVersionQuery env s).Options.TargetRedisVersion "4." = true ∨
          startsWith (afterVersionQuery env s).Options.TargetRedisVersion "3." = true then
        ⟨none, { afterVersionQuery env s with
          Options := { (afterVersionQuery env s).Options with TargetReplace := true } }⟩
      else
        ⟨none, { afterVersionQuery env s with
          Options := { (afterVersionQuery env s).Options with TargetReplace := false } }⟩
  else ⟨none, s⟩

/-- Lines 374-376. -/
def setScanKeyNumber (s : State) : State :=
  if s.Options.ScanKeyNumber = 0 then
    { s with Options := { s.Options with ScanKeyNumber := 100 } }
  else s

/-- Lines 373-387: the checks that only apply to `rump`. -/
def checkRump (env : Env) (tp : String) (s : State) : Outcome :=
  if tp = TypeRump then
    if (setScanKeyNumber s).Options.ScanSpecialCloud ≠ "" ∧
        (setScanKeyNumber s).Options.ScanSpecialCloud ≠ env.TencentCluster ∧
        (setScanKeyNumber s).Options.ScanSpecialCloud ≠ env.AliyunCluster then
      ⟨some (.specialCloud (setScanKeyNumber s).Options.ScanSpecialCloud), setScanKeyNumber s⟩
    else if (setScanKeyNumber s).Options.ScanSpecialCloud ≠ "" ∧
        (setScanKeyNumber s).Options.ScanKeyFile ≠ "" then
      ⟨some (.cloudAndKeyFile (setScanKeyNumber s).Options.ScanSpecialCloud
        (setScanKeyNumber s).Options.ScanKeyFile), setScanKeyNumber s⟩
    else ⟨none, setScanKeyNumber s⟩
  else ⟨none, s⟩

/-- Sequential execution with early return: the first block that returns an error ends
the function, with the globals as that block left them. -/
def runSteps : List (State → Outcome) → State → Outcome
  | [], s => ⟨none, s⟩
  | f :: fs, s =>
    match (f s).err with
    | some e => ⟨some e, (f s).st⟩
    | none => runSteps fs (f s).st

/-- The blocks of lines 173-202: the checks that precede the address checks of line 204. -/
def stepsBeforeAddress (env : Env) (tp : String) : List (State → Outcome) :=
  [checkType tp, checkId, checkNCpu env, checkParallel, checkBigKeyThreshold env]

/-- The blocks of lines 204-356: from the address checks up to the last block before the
target version is queried. -/
def stepsFromAddress (env : Env) (tp : String) : List (State → Outcome) :=
  [checkTargetAddress tp, checkSourceAddress tp, checkRumpAddress tp,
   checkSourcePassword, checkTargetPassword, setLogFile, setLogLevel env,
   checkHeartbeatInterval, setHeartbeatIp env, setFakeTime env, setFilterDB,
   checkFilterSlot, setTargetDB, checkHttpProfile, checkSystemProfile,
   checkSenderSize, checkSenderCount, setSenderDelayChannelSize]

/-- The blocks of `sanitizeOptions(tp)` in source order (lines 173-387). -/
def steps (env : Env) (tp : String) : List (State → Outcome) :=
  stepsBeforeAddress env tp ++ stepsFromAddress env tp ++
    [getTargetVersion env tp, checkRump env tp]

/-- Function `sanitizeOptions(tp)` of `main.go` (lines 171-390), run on the globals `s`. -/
def sanitizeOptions (env : Env) (tp : String) (s : State) : Outcome :=
  runSteps (steps env tp) s

/-- Whether an error of `sanitizeOptions` comes from one of its checks on the options, as
opposed to the failed network query of the target version. -/
def SanitizeError.isOptionCheck : SanitizeError → Bool
  | .getVersionFailed _ => false
  | _ => true

/-- The three address errors of lines 204-212. -/
def SanitizeError.isAddressError : SanitizeError → Bool
  | .targetAddressEmpty => true
  | .sourceAddressEmpty => true
  | .rumpAddressEmpty => true
  | _ => false

/-! ## `crash`, `handleExit`, `startHttpServer`, `main` -/

/-- Type `Exit` of `main.go`: the panic payload that carries the exit code. -/
structure Exit where
  Code : Int
  deriving DecidableEq, Repr

/-- A value given to `panic`: an `Exit`, or anything else (a runtime error). -/
inductive PanicValue where
  | exit (e : Exit)
  | other (v : String)
  deriving DecidableEq, Repr

/-- The messages `main` and `startHttpServer` pass to `crash`, one per fatal cause. -/
inductive CrashMsg where
  /-- Message `Configure file open failed. %v` (line 68). -/
  | confOpenFailed (err : String)
  /-- The error text of `utils.CheckFcv` (line 73). -/
  | fcvCheckFailed (err : String)
  /-- Message `Configure file %s parse failed. %v` (line 79). -/
  | confParseFailed (path err : String)
  /-- Message `Conf.Options check failed: %s` (line 84). -/
  | optionsCheckFailed (e : SanitizeError)
  /-- Message `write pid failed. %v` (line 94). -/
  | writePidFailed (err : String)
  /-- Message `marshal configuration failed[%v]` (line 118). -/
  | marshalFailed (err : String)
  /-- Message `start http listen error[%v]` (line 165). -/
  | httpListenError (err : String)
  deriving DecidableEq, Repr

/-- Effect of one call of `crash`: the message printed and the value it panics with. -/
structure Crash where
  printed : CrashMsg
  panic : PanicValue
  deriving DecidableEq, Repr

/-- Function `crash(msg, errCode)` (lines 392-395): print `msg`, then `panic(Exit{errCode})`. -/
def crash (msg : CrashMsg) (errCode : Int) : Crash :=
  ⟨msg, .exit ⟨errCode⟩⟩

/-- How a goroutine ends. -/
inductive ExitResult where
  /-- Its function returns normally. -/
  | returns
  /-- It calls `os.Exit(code)`. -/
  | osExit (code : Int)
  /-- It panics with `v` and nothing recovers the panic (no deferred `handleExit`, or
  `handleExit` raising again a value that is not an `Exit`): the Go runtime prints the panic
  and ends the process with exit status 2, never through `os.Exit`. -/
  | panics (v : PanicValue)
  deriving DecidableEq, Repr

/-- Function `handleExit` (lines 397-404) on the value `recover()` yields. -/
def handleExit (recovered : Option PanicValue) : ExitResult :=
  match recovered with
  | none => .returns
  | some (.exit e) => .osExit e.Code
  | some (.other v) => .panics (.other v)

/-- The runner types of package `run` that `main` instantiates. -/
inductive Runner where
  | CmdDecode
  | CmdRestore
  | CmdDump
  | CmdSync
  | CmdRump
  deriving DecidableEq, Repr

/-- The `switch *tp` of lines 98-110; `none` is the `nil` zero value of `base.Runner`. -/
def createRunner (tp : String) : Option Runner :=
  if tp = TypeDecode then some .CmdDecode
  else if tp = TypeRestore then some .CmdRestore
  else if tp = TypeDump then some .CmdDump
  else if tp = TypeSync then some .CmdSync
  else if tp = TypeRump then some .CmdRump
  else none

/-- What `main` and `startHttpServer` need from outside `main.go`. -/
structure MainEnv where
  /-- Constant `utils.Version`. -/
  Version : String
  /-- Error of `os.Open(path)`, if any. -/
  Open : String → Option String
  /-- Error of `utils.CheckFcv(path, ...)`, if any. -/
  CheckFcv : String → Option String
  /-- Method `configure.Load(&conf.Options)` for the file at `path`: the options it leaves
  and its error, if any. -/
  Load : String → Configuration → Configuration × Option String
  /-- Error of `utils.WritePidById(id, path)`, if any. -/
  WritePidById : String → String → Option String
  /-- Result of `json.Marshal(conf.GetSafeOptions())`. -/
  Marshal : Configuration → Except String String
  /-- Error returned by `utils.HttpApi.Listen()` on the given port, if any. -/
  Listen : Int → Option String
  /-- The function `SanitizeOptions(tp)` that `main` calls at line 83, run on the globals: no
  file under `src/` declares a function of that name (`main.go` declares `sanitizeOptions`,
  line 171), so it is whatever the platform links. -/
  SanitizeOptions : String → State → Outcome

/-- How one run of `startHttpServer` ends. -/
inductive HttpServerResult where
  /-- The early return of line 155. -/
  | disabled
  /-- The function `Listen` returned without error after serving on the port. -/
  | served (port : Int)
  /-- The call of `crash` at line 165. -/
  | crashed (c : Crash)
  deriving DecidableEq, Repr

/-- Function `startHttpServer` (lines 153-167). -/
def startHttpServer (os : MainEnv) (s : State) : HttpServerResult :=
  if s.Options.HttpProfile = -1 then .disabled
  else
    match os.Listen s.Options.HttpProfile with
    | some err => .crashed (crash (.httpListenError err) (-4))
    | none => .served s.Options.HttpProfile

/-- The command-line flags read by `main`. -/
structure Flags where
  configuration : String
  tp : String
  version : Bool

/-- The observable steps of `main`, in the order they happen. -/
inductive Event where
  | printVersion
  | printUsage
  | printCrash (msg : CrashMsg)
  /-- The call `SanitizeOptions(*tp)` returned `err`. -/
  | sanitizeReturned (err : Option SanitizeError)
  | initSignal
  | initFreeOS
  | profiling (port : Int)
  | welcome
  | createMetric (runner : Option Runner)
  /-- The statement `go startHttpServer()`. -/
  | goStartHttpServer
  | logConfiguration (opts : String)
  /-- The call `runner.Main()`. -/
  | runnerMain (runner : Option Runner)
  | logFinished
  /-- The deferred `utils.Goodbye()`. -/
  | goodbye
  deriving DecidableEq, Repr

/-- One run of `main`: the steps of the main goroutine in order, the globals when it ends,
the crash it ended with (if any), how it ends (what the deferred `handleExit` does), and the
run of the goroutine started by `go startHttpServer()` on the globals at that statement
(`none` when the statement is not reached).  The two goroutines run side by side. -/
structure MainResult where
  events : List Event
  st : State
  crashed : Option Crash
  exit : ExitResult
  http : Option HttpServerResult

/-- A normal return of `main` after `events`: the deferred calls run with nothing to
recover. -/
def finish (events : List Event) (s : State) (http : Option HttpServerResult) : MainResult :=
  ⟨events ++ [.goodbye], s, none, handleExit none, http⟩

/-- A call of `crash` inside `main` after `events`: the message is printed, the panic
unwinds through the deferred `utils.Goodbye` and `handleExit`. -/
def unwind (events : List Event) (s : State) (http : Option HttpServerResult) (c : Crash) :
    MainResult :=
  ⟨events ++ [.printCrash c.printed, .goodbye], s, some c, handleExit (some c.panic), http⟩

/-- The globals `main` hands to `SanitizeOptions`: `Version` and `Type` set (lines 63-64),
then the configuration file loaded into `conf.Options` (line 78). -/
def loadedState (os : MainEnv) (flags : Flags) (s : State) : State :=
  { s with Options := (os.Load flags.configuration
      { s.Options with Version := os.Version, RunType := flags.tp }).1 }

/-- The error of `configure.Load(&conf.Options)` at line 78, if any. -/
def loadError (os : MainEnv) (flags : Flags) (s : State) : Option String :=
  (os.Load flags.configuration
    { s.Options with Version := os.Version, RunType := flags.tp }).2

/-- Lines 87-126 of `main`, reached when `SanitizeOptions` returned `nil`, on the globals
`s` it left. -/
def mainAfterSanitize (os : MainEnv) (flags : Flags) (s : State) : MainResult :=
  match os.WritePidById s.Options.Id s.Options.PidPath with
  | some err =>
    unwind [.sanitizeReturned none, .initSignal, .initFreeOS,
      .profiling s.Options.SystemProfile, .welcome] s none (crash (.writePidFailed err) (-5))
  | none =>
    match os.Marshal s.Options with
    | .error err =>
      unwind [.sanitizeReturned none, .initSignal, .initFreeOS,
        .profiling s.Options.SystemProfile, .welcome, .createMetric (createRunner flags.tp),
        .goStartHttpServer] s (some (startHttpServer os s)) (crash (.marshalFailed err) (-6))
    | .ok opts =>
      match createRunner flags.tp with
      | none =>
        ⟨[.sanitizeReturned none, .initSignal, .initFreeOS,
          .profiling s.Options.SystemProfile, .welcome, .createMetric none,
          .goStartHttpServer, .logConfiguration opts, .runnerMain none, .goodbye], s, none,
          handleExit (some (.other "nil pointer dereference")), some (startHttpServer os s)⟩
      | some r =>
        finish [.sanitizeReturned none, .initSignal, .initFreeOS,
          .profiling s.Options.SystemProfile, .welcome, .createMetric (some r),
          .goStartHttpServer, .logConfiguration opts, .runnerMain (some r), .logFinished] s
          (some (startHttpServer os s))

/-- Function `main` (lines 38-127) on the parsed flags and the globals at process start. -/
def main (os : MainEnv) (flags : Flags) (s : State) : MainResult :=
  if flags.version = true then finish [.printVersion] s none
  else if flags.configuration = "" ∨ flags.tp = "" then finish [.printUsage] s none
  else
    match os.Open flags.configuration with
    | some err =>
      unwind [] { s with Options := { s.Options with Version := os.Version, RunType := flags.tp } }
        none (crash (.confOpenFailed err) (-1))
    | none =>
      match os.CheckFcv flags.configuration with
      | some err =>
        unwind [] { s with Options := { s.Options with Version := os.Version, RunType := flags.tp } }
          none (crash (.fcvCheckFailed err) (-5))
      | none =>
        match loadError os flags s with
        | some err =>
          unwind [] (loadedState os flags s) none
            (crash (.confParseFailed flags.configuration err) (-2))
        | none =>
          match (os.SanitizeOptions flags.tp (loadedState os flags s)).err with
          | some e =>
            unwind [.sanitizeReturned (some e)]
              (os.SanitizeOptions flags.tp (loadedState os flags s)).st none
              (crash (.optionsCheckFailed e) (-4))
          | none =>
            mainAfterSanitize os flags (os.SanitizeOptions flags.tp (loadedState os flags s)).st

/-- Lines 173-202 of `sanitizeOptions`: the run up to, not including, the address checks of
line 204. -/
def beforeAddressChecks (env : Env) (tp : String) (s : State) : Outcome :=
  runSteps (stepsBeforeAddress env tp) s

/-- Lines 173-356 of `sanitizeOptions`: the run up to, not including, the query of the
target version at line 358. -/
def beforeVersionQuery (env : Env) (tp : String) (s : State) : Outcome :=
  runSteps (stepsBeforeAddress env tp ++ stepsFromAddress env tp) s

/-! ## Concrete configurations -/

/-- A platform: 4 CPUs, the usual constants, a target that answers version `4.0.11`,
local address lookup and time parsing that always fail. -/
def sampleEnv : Env where
  MB := 1048576
  NumCPU := 4
  LogLevelNone := "none"
  LogLevelError := "error"
  LogLevelWarn := "warn"
  LogLevelInfo := "info"
  LogLevelAll := "all"
  TencentCluster := "tencent_cluster"
  AliyunCluster := "aliyun_cluster"
  GetLocalIp := fun _ => ("", some "no such interface")
  ToLower := fun x => x
  ParseDuration := fun _ => .error "invalid duration"
  ParseTime := fun _ => .error "cannot parse"
  NowUnixNano := 0
  GetRedisVersion := fun _ _ _ => ("4.0.11", none)

/-- A configuration file that sets only the id and the two addresses. -/
def sampleOptions : Configuration where
  Id := "redis-shake"
  LogFile := ""
  LogLevel := ""
  SystemProfile := 0
  HttpProfile := 0
  NCpu := 0
  Parallel := 0
  SourceAddress := "127.0.0.1:6379"
  SourcePasswordRaw := ""
  SourcePasswordEncoding := ""
  TargetAddress := "127.0.0.1:6380"
  TargetPasswordRaw := ""
  TargetPasswordEncoding := ""
  TargetAuthType := "auth"
  TargetDBString := ""
  TargetDB := 0
  FakeTime := ""
  ShiftTime := 0
  FilterDB := ""
  FilterSlot := []
  BigKeyThreshold := 0
  HeartbeatInterval := 0
  HeartbeatNetworkInterface := ""
  HeartbeatIp := ""
  SenderSize := 0
  SenderCount := 0
  SenderDelayChannelSize := 0
  ScanKeyNumber := 0
  ScanSpecialCloud := ""
  ScanKeyFile := ""
  TargetRedisVersion := ""
  TargetReplace := false
  PidPath := ""
  Version := ""
  RunType := ""

/-- Globals at process start with `sampleOptions` loaded: every database accepted, no
network call made. -/
def sampleState : State where
  Options := sampleOptions
  AcceptDB := fun _ => true
  LogRotater := none
  logLevel := .LEVEL_INFO
  maxProcs := 1
  netCalls := []

/-- An operating system on which every step of `main` succeeds, and where `SanitizeOptions`
is `sanitizeOptions` on `sampleEnv`. -/
def sampleOs : MainEnv where
  Version := "v1"
  Open := fun _ => none
  CheckFcv := fun _ => none
  Load := fun _ o => (o, none)
  WritePidById := fun _ _ => none
  Marshal := fun _ => .ok "json"
  Listen := fun _ => none
  SanitizeOptions := sanitizeOptions sampleEnv

/-- The command line `-conf redis-shake.conf -type sync`. -/
def sampleFlags : Flags where
  configuration := "redis-shake.conf"
  tp := "sync"
  version := false

/-- The configuration `sampleOptions` with `scan.special_cloud = other`. -/
def cloudState : State :=
  { sampleState with Options := { sampleOptions with ScanSpecialCloud := "other" } }

/-- The configuration `sampleOptions` with `filter.db = 1`. -/
def filterOneState : State :=
  { sampleState with Options := { sampleOptions with FilterDB := "1" } }

/-- The configuration `sampleOptions` with `filter.db = -1`. -/
def filterMinusOneState : State :=
  { sampleState with Options := { sampleOptions with FilterDB := "-1" } }

/-- The configuration `sampleOptions` with both addresses empty. -/
def noAddressState : State :=
  { sampleState with Options := { sampleOptions with SourceAddress := "", TargetAddress := "" } }

/-- The configuration `sampleOptions` with `sender.size = 1073741824`. -/
def senderSizeLimitState : State :=
  { sampleState with Options := { sampleOptions with SenderSize := 1073741824 } }

/-- The configuration `sampleOptions` with `sender.count = 100000`. -/
def senderCountLimitState : State :=
  { sampleState with Options := { sampleOptions with SenderCount := 100000 } }

/-- The configuration `sampleOptions` with `parallel = -1` (and `ncpu` not set). -/
def negativeParallelState : State :=
  { sampleState with Options := { sampleOptions with Parallel := -1 } }

/-- The empty run changes nothing. -/
theorem runSteps_nil (s : State) : runSteps [] s = ⟨none, s⟩ := rfl

/-- A block that passes hands its state to the rest of the run. -/
theorem runSteps_cons_ok (f : State → Outcome) (fs : List (State → Outcome)) (s : State)
    (h : (f s).err = none) : runSteps (f :: fs) s = runSteps fs (f s).st := by
  simp [runSteps, h]

/-- A block that fails ends the run with its error and its state. -/
theorem runSteps_cons_err (f : State → Outcome) (fs : List (State → Outcome)) (s : State)
    (e : SanitizeError) (h : (f s).err = some e) :
    runSteps (f :: fs) s = ⟨some e, (f s).st⟩ := by
  simp [runSteps, h]

/-- Running `fs ++ gs`: when `fs` ends without error, `gs` continues from its state. -/
theorem runSteps_append_ok (fs gs : List (State → Outcome)) (s : State)
    (h : (runSteps fs s).err = none) :
    runSteps (fs ++ gs) s = runSteps gs (runSteps fs s).st := by
  induction fs generalizing s with
  | nil => rfl
  | cons f fs ih =>
    cases hf : (f s).err with
    | none =>
      rw [runSteps_cons_ok f fs s hf] at h
      rw [List.cons_append, runSteps_cons_ok f _ s hf, runSteps_cons_ok f fs s hf]
      exact ih _ h
    | some e =>
      rw [runSteps_cons_err f fs s e hf] at h
      cases h

/-- Running `fs ++ gs`: an error inside `fs` ends the run there. -/
theorem runSteps_append_err (fs gs : List (State → Outcome)) (s : State) (e : SanitizeError)
    (h : (runSteps fs s).err = some e) :
    runSteps (fs ++ gs) s = runSteps fs s := by
  induction fs generalizing s with
  | nil => cases h
  | cons f fs ih =>
    cases hf : (f s).err with
    | none =>
      rw [runSteps_cons_ok f fs s hf] at h
      rw [List.cons_append, runSteps_cons_ok f _ s hf, runSteps_cons_ok f fs s hf]
      exact ih _ h
    | some e1 =>
      rw [List.cons_append, runSteps_cons_err f _ s e1 hf, runSteps_cons_err f fs s e1 hf]

/-- A run of `fs ++ gs` that ends without error passed `fs` without error. -/
theorem runSteps_append_ok_left (fs gs : List (State → Outcome)) (s : State)
    (h : (runSteps (fs ++ gs) s).err = none) : (runSteps fs s).err = none := by
  cases hf : (runSteps fs s).err with
  | none => rfl
  | some e =>
    rw [runSteps_append_err fs gs s e hf, hf] at h
    cases h

/-- A reflexive and transitive relation that every block respects (whether it fails or
not) holds between the globals before and after the whole run. -/
theorem runSteps_rel (R : State → State → Prop) (hrefl : ∀ s, R s s)
    (htrans : ∀ a b c, R a b → R b c → R a c) (fs : List (State → Outcome))
    (h : ∀ f ∈ fs, ∀ s, R s (f s).st) (s : State) : R s (runSteps fs s).st := by
  induction fs generalizing s with
  | nil => exact hrefl s
  | cons f fs ih =>
    have hf := h f (List.mem_cons_self f fs) s
    cases he : (f s).err with
    | none =>
      rw [runSteps_cons_ok f fs s he]
      exact htrans _ _ _ hf (ih (fun g hg => h g (List.mem_cons_of_mem f hg)) _)
    | some e =>
      rw [runSteps_cons_err f fs s e he]
      exact hf

/-- A property that one block `k` of the run establishes when it succeeds, and that every
block preserves, holds after a successful run. -/
theorem runSteps_establish (P : State → Prop) (k : State → Outcome)
    (fs : List (State → Outcome)) (hk : k ∈ fs)
    (hest : ∀ s, (k s).err = none → P (k s).st)
    (hpres : ∀ f ∈ fs, ∀ s, P s → P (f s).st) (s : State)
    (hok : (runSteps fs s).err = none) : P (runSteps fs s).st := by
  induction fs generalizing s with
  | nil => cases hk
  | cons f fs ih =>
    cases he : (f s).err with
    | some e =>
      rw [runSteps_cons_err f fs s e he] at hok
      cases hok
    | none =>
      rw [runSteps_cons_ok f fs s he] at hok ⊢
      rcases List.mem_cons.mp hk with hkf | hkf
      · subst hkf
        exact runSteps_rel (fun a b => P a → P b) (fun _ h => h)
          (fun _ _ _ hab hbc h => hbc (hab h)) fs
          (fun g hg t => hpres g (List.mem_cons_of_mem _ hg) t) _ (hest s he)
      · exact ih hkf (fun g hg => hpres g (List.mem_cons_of_mem f hg)) _ hok

/-- An error returned by the run is the error returned by one of its blocks. -/
theorem runSteps_err_mem (fs : List (State → Outcome)) (s : State) (e : SanitizeError)
    (h : (runSteps fs s).err = some e) : ∃ f ∈ fs, ∃ t, (f t).err = some e := by
  induction fs generalizing s with
  | nil => cases h
  | cons f fs ih =>
    cases he : (f s).err with
    | some e1 =>
      rw [runSteps_cons_err f fs s e1 he] at h
      exact ⟨f, List.mem_cons_self f fs, s, by rw [he]; exact h⟩
    | none =>
      rw [runSteps_cons_ok f fs s he] at h
      obtain ⟨g, hg, t, ht⟩ := ih _ h
      exact ⟨g, List.mem_cons_of_mem f hg, t, ht⟩

/-- A property of every block of `sanitizeOptions` is a property of each member of `steps`. -/
theorem steps_forall (env : Env) (tp : String) (Q : (State → Outcome) → Prop)
    (h1 : Q (checkType tp)) (h2 : Q checkId) (h3 : Q (checkNCpu env)) (h4 : Q checkParallel)
    (h5 : Q (checkBigKeyThreshold env)) (h6 : Q (checkTargetAddress tp))
    (h7 : Q (checkSourceAddress tp)) (h8 : Q (checkRumpAddress tp))
    (h9 : Q checkSourcePassword) (h10 : Q checkTargetPassword) (h11 : Q setLogFile)
    (h12 : Q (setLogLevel env)) (h13 : Q checkHeartbeatInterval) (h14 : Q (setHeartbeatIp env))
    (h15 : Q (setFakeTime env)) (h16 : Q setFilterDB) (h17 : Q checkFilterSlot)
    (h18 : Q setTargetDB) (h19 : Q checkHttpProfile) (h20 : Q checkSystemProfile)
    (h21 : Q checkSenderSize) (h22 : Q checkSenderCount) (h23 : Q setSenderDelayChannelSize)
    (h24 : Q (getTargetVersion env tp)) (h25 : Q (checkRump env tp)) :
    ∀ f ∈ steps env tp, Q f := by
  simp only [steps, stepsBeforeAddress, stepsFromAddress, List.cons_append, List.nil_append,
    List.forall_mem_cons]
  exact ⟨h1, h2, h3, h4, h5, h6, h7, h8, h9, h10, h11, h12, h13, h14, h15, h16, h17, h18, h19,
    h20, h21, h22, h23, h24, h25, fun _ h => by cases h⟩

/-! ## Network calls, and the steps of `main` -/

/-- Every block before the version query leaves the list of network calls alone. -/
theorem netCalls_frame (env : Env) (tp : String) :
    ∀ f ∈ stepsBeforeAddress env tp ++ stepsFromAddress env tp,
      ∀ s, (f s).st.netCalls = s.netCalls := by
  simp only [stepsBeforeAddress, stepsFromAddress, List.cons_append, List.nil_append,
    List.forall_mem_cons]
  refine ⟨?_, ?_, ?_, ?_, ?_, ?_, ?_, ?_, ?_, ?_, ?_, ?_, ?_, ?_, ?_, ?_, ?_, ?_, ?_, ?_, ?_,
    ?_, ?_, ?_⟩
  all_goals first
    | (intro f hf; cases hf)
    | (intro s
       simp only [checkType, checkId, checkNCpu, checkParallel, checkBigKeyThreshold,
         checkTargetAddress, checkSourceAddress, checkRumpAddress, checkSourcePassword,
         checkTargetPassword, setLogFile, setLogLevel, checkHeartbeatInterval, setHeartbeatIp,
         setFakeTime, setFilterDB, checkFilterSlot, setTargetDB, checkHttpProfile,
         checkSystemProfile, checkSenderSize, checkSenderCount, setSenderDelayChannelSize]
       repeat' (first | rfl | split))

/-- From the version block on, an error other than the failed query means no query was
made: the only later checks are those of `rump`, a type that skips the query. -/
theorem tail_netCalls (env : Env) (tp : String) (s : State) (e : SanitizeError)
    (he : (runSteps [getTargetVersion env tp, checkRump env tp] s).err = some e)
    (hchk : e.isOptionCheck = true) :
    (runSteps [getTargetVersion env tp, checkRump env tp] s).st.netCalls = s.netCalls := by
  by_cases h1 : tp = TypeRestore ∨ tp = TypeSync
  · have h2 : tp ≠ TypeRump := by
      rcases h1 with h | h <;> rw [h] <;> decide
    cases hq : (env.GetRedisVersion s.Options.TargetAddress s.Options.TargetAuthType
        s.Options.TargetPasswordRaw).2 with
    | some e1 =>
      have : (getTargetVersion env tp s).err = some (.getVersionFailed e1) := by
        simp [getTargetVersion, h1, hq]
      rw [runSteps_cons_err _ _ _ _ this] at he
      simp at he
      subst he
      simp [SanitizeError.isOptionCheck] at hchk
    | none =>
      have : (getTargetVersion env tp s).err = none := by
        simp only [getTargetVersion, h1, hq, if_true]
        split <;> rfl
      rw [runSteps_cons_ok _ _ _ this] at he
      simp [runSteps, checkRump, h2] at he
  · have : getTargetVersion env tp s = ⟨none, s⟩ := by
      simp [getTargetVersion, h1]
    rw [runSteps_cons_ok _ _ _ (by rw [this])]
    simp only [this, runSteps, checkRump, setScanKeyNumber]
    repeat (first | rfl | split)

/-- An option-check error of `sanitizeOptions` leaves the list of network calls as it was. -/
theorem sanitizeOptions_netCalls (env : Env) (tp : String) (s : State) (e : SanitizeError)
    (he : (sanitizeOptions env tp s).err = some e) (hchk : e.isOptionCheck = true) :
    (sanitizeOptions env tp s).st.netCalls = s.netCalls := by
  unfold sanitizeOptions steps at *
  have hframe := runSteps_rel (fun a b => b.netCalls = a.netCalls) (fun _ => rfl)
    (fun _ _ _ hab hbc => hbc.trans hab) _ (netCalls_frame env tp) s
  cases hp : (runSteps (stepsBeforeAddress env tp ++ stepsFromAddress env tp) s).err with
  | some e1 =>
    rw [runSteps_append_err _ _ s e1 hp]
    exact hframe
  | none =>
    rw [runSteps_append_ok _ _ s hp] at he ⊢
    rw [tail_netCalls env tp _ e he hchk]
    exact hframe

/-- The steps of `main` past a successful `SanitizeOptions` start with its return. -/
theorem mainAfterSanitize_events (os : MainEnv) (flags : Flags) (s : State) :
    ∃ rest, (mainAfterSanitize os flags s).events = .sanitizeReturned none :: rest := by
  unfold mainAfterSanitize
  repeat' (first | exact ⟨_, rfl⟩ | split)

/-- Past `SanitizeOptions`, the runner given to `metric.CreateMetric` and the runner whose
`Main` is called are the one the switch on the run type yields. -/
theorem mainAfterSanitize_runner (os : MainEnv) (flags : Flags) (s : State) (r : Option Runner)
    (h : Event.createMetric r ∈ (mainAfterSanitize os flags s).events ∨
      Event.runnerMain r ∈ (mainAfterSanitize os flags s).events) :
    r = createRunner flags.tp := by
  cases hw : os.WritePidById s.Options.Id s.Options.PidPath with
  | some e => simp [mainAfterSanitize, hw, unwind] at h
  | none =>
    cases hm : os.Marshal s.Options with
    | error e => simpa [mainAfterSanitize, hw, hm, unwind] using h
    | ok opts =>
      cases hr : createRunner flags.tp with
      | none => simpa [mainAfterSanitize, hw, hm, hr] using h
      | some r0 => simpa [mainAfterSanitize, hw, hm, hr, finish] using h

/-- Past `SanitizeOptions`, once the pid file is written `main` creates the metric with the
runner of the switch and starts the HTTP goroutine; once the configuration is marshalled it
calls `Main` on that runner. -/
theorem mainAfterSanitize_reaches (os : MainEnv) (flags : Flags) (s : State)
    (hw : os.WritePidById s.Options.Id s.Options.PidPath = none) :
    Event.createMetric (createRunner flags.tp) ∈ (mainAfterSanitize os flags s).events ∧
    Event.goStartHttpServer ∈ (mainAfterSanitize os flags s).events ∧
    (∀ opts, os.Marshal s.Options = .ok opts →
      Event.runnerMain (createRunner flags.tp) ∈ (mainAfterSanitize os flags s).events) := by
  cases hm : os.Marshal s.Options with
  | error e => simp [mainAfterSanitize, hw, hm, unwind]
  | ok opts =>
    cases hr : createRunner flags.tp with
    | none => simp [mainAfterSanitize, hw, hm, hr]
    | some r0 => simp [mainAfterSanitize, hw, hm, hr, finish]

/-- With both flags given and every step up to `SanitizeOptions` passing, `main` continues
with lines 87-126 on the globals `SanitizeOptions` left. -/
theorem main_reaches (os : MainEnv) (flags : Flags) (s : State)
    (hv : flags.version = false) (hc : flags.configuration ≠ "") (ht : flags.tp ≠ "")
    (ho : os.Open flags.configuration = none) (hk : os.CheckFcv flags.configuration = none)
    (hl : loadError os flags s = none)
    (hs : (os.SanitizeOptions flags.tp (loadedState os flags s)).err = none) :
    main os flags s =
      mainAfterSanitize os flags (os.SanitizeOptions flags.tp (loadedState os flags s)).st := by
  have hv' : ¬ flags.version = true := by simp [hv]
  have hf : ¬ (flags.configuration = "" ∨ flags.tp = "") := by
    rintro (h | h)
    · exact hc h
    · exact ht h
  simp only [main, if_neg hv', if_neg hf, ho, hk, hl, hs]

/-- Either `main` gets past a successful `SanitizeOptions`, or it neither creates the
metric, nor starts the HTTP goroutine, nor runs the runner. -/
theorem main_cases (os : MainEnv) (flags : Flags) (s : State) :
    ((os.SanitizeOptions flags.tp (loadedState os flags s)).err = none ∧
      main os flags s =
        mainAfterSanitize os flags (os.SanitizeOptions flags.tp (loadedState os flags s)).st) ∨
    ((∀ ev ∈ (main os flags s).events,
        ev ≠ .goStartHttpServer ∧ ∀ r, ev ≠ .runnerMain r ∧ ev ≠ .createMetric r) ∧
      (main os flags s).http = none) := by
  unfold main
  split
  · right; simp [finish]
  split
  · right; simp [finish]
  split
  · right; simp [unwind]
  split
  · right; simp [unwind]
  split
  · right; simp [unwind]
  split
  · right; simp [unwind]
  · left; exact ⟨by assumption, rfl⟩

/-- Only the first block reports an unknown run type. -/
theorem unknownType_only_first (env : Env) (tp : String) :
    ∀ f ∈ [checkId, checkNCpu env, checkParallel, checkBigKeyThreshold env] ++
        stepsFromAddress env tp ++ [getTargetVersion env tp, checkRump env tp],
      ∀ s x, (f s).err ≠ some (.unknownType x) := by
  simp only [stepsFromAddress, List.cons_append, List.nil_append, List.forall_mem_cons]
  refine ⟨?_, ?_, ?_, ?_, ?_, ?_, ?_, ?_, ?_, ?_, ?_, ?_, ?_, ?_, ?_, ?_, ?_, ?_, ?_, ?_, ?_,
    ?_, ?_, ?_, ?_⟩
  all_goals first
    | (intro s x
       simp only [checkId, checkNCpu, checkParallel, checkBigKeyThreshold,
         checkTargetAddress, checkSourceAddress, checkRumpAddress, checkSourcePassword,
         checkTargetPassword, setLogFile, setLogLevel, checkHeartbeatInterval, setHeartbeatIp,
         setFakeTime, setFilterDB, checkFilterSlot, setTargetDB, checkHttpProfile,
         checkSystemProfile, checkSenderSize, checkSenderCount, setSenderDelayChannelSize,
         getTargetVersion, checkRump]
       repeat' (first | (simp; done) | split))
    | (intro f hf; cases hf)

/-- The switch of `main` yields a runner exactly for the run types `checkType` lets pass. -/
theorem knownType_iff (tp : String) :
    ¬ (tp ≠ TypeDecode ∧ tp ≠ TypeRestore ∧ tp ≠ TypeDump ∧ tp ≠ TypeSync ∧ tp ≠ TypeRump) ↔
      ∃ r, createRunner tp = some r := by
  unfold createRunner
  constructor
  · intro h
    split_ifs <;> first | exact ⟨_, rfl⟩ | (exfalso; apply h; refine ⟨?_, ?_, ?_, ?_, ?_⟩ <;> assumption)
  · rintro ⟨r, hr⟩ ⟨h1, h2, h3, h4, h5⟩
    simp [h1, h2, h3, h4, h5] at hr

/-- An unknown run type is rejected by the first block, with that type in the error. -/
theorem sanitizeOptions_unknownType (env : Env) (tp : String) (s : State)
    (h : tp ≠ TypeDecode ∧ tp ≠ TypeRestore ∧ tp ≠ TypeDump ∧ tp ≠ TypeSync ∧ tp ≠ TypeRump) :
    (sanitizeOptions env tp s).err = some (.unknownType tp) := by
  have : (checkType tp s).err = some (.unknownType tp) := by simp [checkType, h]
  simp only [sanitizeOptions, steps, stepsBeforeAddress, List.cons_append]
  rw [runSteps_cons_err _ _ _ _ this]

/-- A known run type never gets the unknown-type error. -/
theorem sanitizeOptions_knownType (env : Env) (tp : String) (s : State) (x : String)
    (h : ¬ (tp ≠ TypeDecode ∧ tp ≠ TypeRestore ∧ tp ≠ TypeDump ∧ tp ≠ TypeSync ∧ tp ≠ TypeRump)) :
    (sanitizeOptions env tp s).err ≠ some (.unknownType x) := by
  have h0 : checkType tp s = ⟨none, s⟩ := by simp only [checkType, if_neg h]
  simp only [sanitizeOptions, steps, stepsBeforeAddress, List.cons_append, List.nil_append]
  rw [runSteps_cons_ok _ _ _ (by rw [h0]), h0]
  intro he
  obtain ⟨f, hf, t, ht⟩ := runSteps_err_mem _ _ _ he
  exact unknownType_only_first env tp f (by simpa using hf) t x ht

/-- A successful `sanitizeOptions` means the switch of `main` yields a runner. -/
theorem sanitizeOptions_ok_runner (env : Env) (tp : String) (s : State)
    (h : (sanitizeOptions env tp s).err = none) : ∃ r, createRunner tp = some r := by
  by_cases hk : tp ≠ TypeDecode ∧ tp ≠ TypeRestore ∧ tp ≠ TypeDump ∧ tp ≠ TypeSync ∧ tp ≠ TypeRump
  · rw [sanitizeOptions_unknownType env tp s hk] at h
    cases h
  · exact (knownType_iff tp).mp hk

/-! ## The database filter -/

/-- A 32-bit `parseInt` result lies in the `int32` range. -/
theorem parseInt_range (s : String) (n : Int) (h : parseInt s 32 = .ok n) :
    -2147483648 ≤ n ∧ n ≤ 2147483647 := by
  unfold parseInt at h
  split at h
  · cases h
  · simp only at h
    split at h
    · cases h
    · cases h
    · split at h
      · cases h
      · split at h
        · cases h
        · rename_i un _ h1 h2
          simp only [Except.ok.injEq] at h
          subst h
          simp only [decide_eq_false_iff_not, decide_eq_true_eq, not_and, not_le, not_lt] at h1 h2
          norm_num at h1 h2
          split
          · rename_i hneg
            have := h2 (by simpa using hneg)
            omega
          · rename_i hneg
            have := h1 (by simpa using hneg)
            omega

/-- Equality with `toUint32 n` is equality with `n` modulo `2^32`. -/
theorem toUint32_eq (n : Int) (db : Nat) :
    db = toUint32 n ↔ (db : Int) = n % 4294967296 := by
  unfold toUint32
  have h : (0 : Int) ≤ n % 4294967296 := Int.emod_nonneg _ (by norm_num)
  omega

/-- Every block leaves `FilterDB` alone, and leaves `base.AcceptDB` alone when `FilterDB` is
empty. -/
theorem acceptDB_frame (env : Env) (tp : String) (s : State) :
    (sanitizeOptions env tp s).st.Options.FilterDB = s.Options.FilterDB ∧
      (s.Options.FilterDB = "" → (sanitizeOptions env tp s).st.AcceptDB = s.AcceptDB) := by
  refine runSteps_rel
    (fun a b => b.Options.FilterDB = a.Options.FilterDB ∧
      (a.Options.FilterDB = "" → b.AcceptDB = a.AcceptDB))
    (fun _ => ⟨rfl, fun _ => rfl⟩)
    (fun a b c hab hbc => ⟨hbc.1.trans hab.1, fun h => (hbc.2 (hab.1.trans h)).trans (hab.2 h)⟩)
    (steps env tp) ?_ s
  apply steps_forall env tp (fun f => ∀ s, (f s).st.Options.FilterDB = s.Options.FilterDB ∧
      (s.Options.FilterDB = "" → (f s).st.AcceptDB = s.AcceptDB))
  all_goals
    intro s
    simp only [checkType, checkId, checkNCpu, checkParallel, checkBigKeyThreshold,
      checkTargetAddress, checkSourceAddress, checkRumpAddress, checkSourcePassword,
      checkTargetPassword, setLogFile, setLogLevel, checkHeartbeatInterval, setHeartbeatIp,
      setFakeTime, setFilterDB, checkFilterSlot, setTargetDB, checkHttpProfile,
      checkSystemProfile, checkSenderSize, checkSenderCount, setSenderDelayChannelSize,
      getTargetVersion, afterVersionQuery, checkRump, setScanKeyNumber]
    repeat' (first | exact ⟨rfl, fun _ => rfl⟩ | (simp_all; done) | split)

/-- After a successful run with a non-empty `FilterDB`, `base.AcceptDB` is the comparison
with the parsed integer converted to `uint32`. -/
theorem acceptDB_installed (env : Env) (tp : String) (s : State)
    (hok : (sanitizeOptions env tp s).err = none) :
    (sanitizeOptions env tp s).st.Options.FilterDB ≠ "" →
      ∃ n, parseInt (sanitizeOptions env tp s).st.Options.FilterDB 32 = .ok n ∧
        ∀ db, (sanitizeOptions env tp s).st.AcceptDB db = decide (db = toUint32 n) := by
  refine runSteps_establish
    (fun t => t.Options.FilterDB ≠ "" →
      ∃ n, parseInt t.Options.FilterDB 32 = .ok n ∧
        ∀ db, t.AcceptDB db = decide (db = toUint32 n))
    setFilterDB (steps env tp) (by simp [steps, stepsFromAddress]) ?_ ?_ s hok
  · intro t ht hne
    by_cases h0 : t.Options.FilterDB = ""
    · have key : setFilterDB t = ⟨none, t⟩ := by simp [setFilterDB, h0]
      rw [key] at hne
      exact absurd h0 hne
    · cases hp : parseInt t.Options.FilterDB 32 with
      | error e =>
        have key : (setFilterDB t).err = some (.parseFilterDB e) := by
          simp [setFilterDB, h0, hp]
        rw [key] at ht
        cases ht
      | ok n =>
        have key : setFilterDB t =
            ⟨none, { t with AcceptDB := fun db => decide (db = toUint32 n) }⟩ := by
          simp [setFilterDB, h0, hp]
        rw [key]
        exact ⟨n, hp, fun _ => rfl⟩
  · apply steps_forall env tp (fun f => ∀ s,
      (s.Options.FilterDB ≠ "" →
        ∃ n, parseInt s.Options.FilterDB 32 = .ok n ∧
          ∀ db, s.AcceptDB db = decide (db = toUint32 n)) →
      ((f s).st.Options.FilterDB ≠ "" →
        ∃ n, parseInt (f s).st.Options.FilterDB 32 = .ok n ∧
          ∀ db, (f s).st.AcceptDB db = decide (db = toUint32 n)))
    all_goals
      intro s hP
      simp only [checkType, checkId, checkNCpu, checkParallel, checkBigKeyThreshold,
        checkTargetAddress, checkSourceAddress, checkRumpAddress, checkSourcePassword,
        checkTargetPassword, setLogFile, setLogLevel, checkHeartbeatInterval, setHeartbeatIp,
        setFakeTime, setFilterDB, checkFilterSlot, setTargetDB, checkHttpProfile,
        checkSystemProfile, checkSenderSize, checkSenderCount, setSenderDelayChannelSize,
        getTargetVersion, afterVersionQuery, checkRump, setScanKeyNumber]
      repeat' (first | exact hP | (intro _; exact ⟨_, by assumption, fun _ => rfl⟩) | split)

/-! ## The target version -/

/-- Function `startsWith s p` holds exactly when `s` is `p` followed by something. -/
theorem startsWith_iff (s p : String) : startsWith s p = true ↔ ∃ t : String, s = p ++ t := by
  unfold startsWith
  rw [List.isPrefixOf_iff_prefix]
  constructor
  · rintro ⟨l, hl⟩
    refine ⟨⟨l⟩, String.ext ?_⟩
    rw [String.data_append]
    exact hl.symm
  · rintro ⟨t, rfl⟩
    exact ⟨t.data, by rw [String.toList, String.toList, String.data_append]⟩

/-- Outside `restore` and `sync` no block touches `TargetRedisVersion` or `TargetReplace`. -/
theorem targetVersion_frame (env : Env) (tp : String) (s : State)
    (h : ¬ (tp = TypeRestore ∨ tp = TypeSync)) :
    (sanitizeOptions env tp s).st.Options.TargetRedisVersion = s.Options.TargetRedisVersion ∧
      (sanitizeOptions env tp s).st.Options.TargetReplace = s.Options.TargetReplace := by
  refine runSteps_rel
    (fun a b => b.Options.TargetRedisVersion = a.Options.TargetRedisVersion ∧
      b.Options.TargetReplace = a.Options.TargetReplace)
    (fun _ => ⟨rfl, rfl⟩)
    (fun a b c hab hbc => ⟨hbc.1.trans hab.1, hbc.2.trans hab.2⟩)
    (steps env tp) ?_ s
  apply steps_forall env tp (fun f => ∀ s,
    (f s).st.Options.TargetRedisVersion = s.Options.TargetRedisVersion ∧
      (f s).st.Options.TargetReplace = s.Options.TargetReplace)
  all_goals
    intro s
    simp only [checkType, checkId, checkNCpu, checkParallel, checkBigKeyThreshold,
      checkTargetAddress, checkSourceAddress, checkRumpAddress, checkSourcePassword,
      checkTargetPassword, setLogFile, setLogLevel, checkHeartbeatInterval, setHeartbeatIp,
      setFakeTime, setFilterDB, checkFilterSlot, setTargetDB, checkHttpProfile,
      checkSystemProfile, checkSenderSize, checkSenderCount, setSenderDelayChannelSize,
      getTargetVersion, checkRump, setScanKeyNumber]
    repeat' (first | exact ⟨rfl, rfl⟩ | (exfalso; apply h; assumption) | split)

/-- The two blocks after the version query point, for `restore` and `sync`. -/
theorem versionQuery_tail (env : Env) (tp : String) (s : State)
    (h : tp = TypeRestore ∨ tp = TypeSync) :
    ((env.GetRedisVersion s.Options.TargetAddress s.Options.TargetAuthType
        s.Options.TargetPasswordRaw).2 = none →
      (runSteps [getTargetVersion env tp, checkRump env tp] s).err = none ∧
      (runSteps [getTargetVersion env tp, checkRump env tp] s).st.Options.TargetRedisVersion =
        (env.GetRedisVersion s.Options.TargetAddress s.Options.TargetAuthType
          s.Options.TargetPasswordRaw).1 ∧
      (runSteps [getTargetVersion env tp, checkRump env tp] s).st.Options.TargetReplace =
        (startsWith (env.GetRedisVersion s.Options.TargetAddress s.Options.TargetAuthType
            s.Options.TargetPasswordRaw).1 "3." ||
          startsWith (env.GetRedisVersion s.Options.TargetAddress s.Options.TargetAuthType
            s.Options.TargetPasswordRaw).1 "4.")) ∧
    (∀ e, (env.GetRedisVersion s.Options.TargetAddress s.Options.TargetAuthType
        s.Options.TargetPasswordRaw).2 = some e →
      (runSteps [getTargetVersion env tp, checkRump env tp] s).err =
        some (.getVersionFailed e)) := by
  have h2 : tp ≠ TypeRump := by
    rcases h with h | h <;> rw [h] <;> decide
  have hr : ∀ st, runSteps [checkRump env tp] st = ⟨none, st⟩ := by
    intro st
    simp [runSteps, checkRump, h2]
  constructor
  · intro hq
    by_cases hv : startsWith (afterVersionQuery env s).Options.TargetRedisVersion "4." = true ∨
        startsWith (afterVersionQuery env s).Options.TargetRedisVersion "3." = true
    · have key : getTargetVersion env tp s = ⟨none, { afterVersionQuery env s with
          Options := { (afterVersionQuery env s).Options with TargetReplace := true } }⟩ := by
        simp only [getTargetVersion, if_pos h, hq, if_pos hv]
      rw [runSteps_cons_ok _ _ _ (by rw [key]), key, hr]
      refine ⟨rfl, rfl, ?_⟩
      simp only [afterVersionQuery] at hv ⊢
      rcases hv with hv | hv <;> simp [hv]
    · have key : getTargetVersion env tp s = ⟨none, { afterVersionQuery env s with
          Options := { (afterVersionQuery env s).Options with TargetReplace := false } }⟩ := by
        simp only [getTargetVersion, if_pos h, hq, if_neg hv]
      rw [runSteps_cons_ok _ _ _ (by rw [key]), key, hr]
      refine ⟨rfl, rfl, ?_⟩
      simp only [afterVersionQuery, not_or, Bool.not_eq_true] at hv ⊢
      simp [hv.1, hv.2]
  · intro e hq
    have key : (getTargetVersion env tp s).err = some (.getVersionFailed e) := by
      simp only [getTargetVersion, if_pos h, hq]
    rw [runSteps_cons_err _ _ _ _ key]

/-! ## Addresses -/

/-- The blocks of lines 173-202 leave both addresses alone. -/
theorem address_frame (env : Env) (tp : String) (s : State) :
    (beforeAddressChecks env tp s).st.Options.TargetAddress = s.Options.TargetAddress ∧
      (beforeAddressChecks env tp s).st.Options.SourceAddress = s.Options.SourceAddress := by
  refine runSteps_rel
    (fun a b => b.Options.TargetAddress = a.Options.TargetAddress ∧
      b.Options.SourceAddress = a.Options.SourceAddress)
    (fun _ => ⟨rfl, rfl⟩)
    (fun a b c hab hbc => ⟨hbc.1.trans hab.1, hbc.2.trans hab.2⟩)
    (stepsBeforeAddress env tp) ?_ s
  simp only [stepsBeforeAddress, List.forall_mem_cons]
  refine ⟨?_, ?_, ?_, ?_, ?_, fun _ h => by cases h⟩
  all_goals
    intro s
    simp only [checkType, checkId, checkNCpu, checkParallel, checkBigKeyThreshold]
    repeat' (first | exact ⟨rfl, rfl⟩ | split)

/-- No block after the three address checks returns an address error. -/
theorem no_address_error_later (env : Env) (tp : String) :
    ∀ f ∈ [checkSourcePassword, checkTargetPassword, setLogFile, setLogLevel env,
        checkHeartbeatInterval, setHeartbeatIp env, setFakeTime env, setFilterDB,
        checkFilterSlot, setTargetDB, checkHttpProfile, checkSystemProfile,
        checkSenderSize, checkSenderCount, setSenderDelayChannelSize,
        getTargetVersion env tp, checkRump env tp],
      ∀ s e, (f s).err = some e → e.isAddressError = false := by
  simp only [List.forall_mem_cons]
  refine ⟨?_, ?_, ?_, ?_, ?_, ?_, ?_, ?_, ?_, ?_, ?_, ?_, ?_, ?_, ?_, ?_, ?_,
    fun _ h => by cases h⟩
  all_goals
    intro s e
    simp only [checkSourcePassword,
      checkTargetPassword, setLogFile, setLogLevel, checkHeartbeatInterval, setHeartbeatIp,
      setFakeTime, setFilterDB, checkFilterSlot, setTargetDB, checkHttpProfile,
      checkSystemProfile, checkSenderSize, checkSenderCount, setSenderDelayChannelSize,
      getTargetVersion, checkRump]
    repeat' (first | (intro h; simp only [Option.some.injEq] at h; subst h; rfl) |
      (intro h; simp at h; done) | split)

/-! ## Defaults and ranges -/

/-- The shape "unchanged, or was zero and now holds the default" composes. -/
theorem keepOrDefault_trans (d a b c : Int) (hab : b = a ∨ (a = 0 ∧ b = d))
    (hbc : c = b ∨ (b = 0 ∧ c = d)) : c = a ∨ (a = 0 ∧ c = d) := by
  rcases hab with h1 | ⟨h1, h2⟩ <;> rcases hbc with h3 | ⟨h3, h4⟩
  · exact Or.inl (h3.trans h1)
  · exact Or.inr ⟨by rw [← h1]; exact h3, h4⟩
  · exact Or.inr ⟨h1, h3.trans h2⟩
  · exact Or.inr ⟨h1, h4⟩

/-- From "unchanged, or was zero and now the default" and "not zero now": the default when
it was zero, the old value otherwise. -/
theorem keepOrDefault_resolve (d a b : Int) (h : b = a ∨ (a = 0 ∧ b = d)) (hb : b ≠ 0) :
    b = if a = 0 then d else a := by
  by_cases ha : a = 0
  · rw [if_pos ha]
    rcases h with h | ⟨_, h⟩
    · exact absurd (h.trans ha) hb
    · exact h
  · rw [if_neg ha]
    rcases h with h | ⟨h, _⟩
    · exact h
    · exact absurd h ha

/-- Each of the eight options is, after any block, unchanged or was zero and holds its
default. -/
theorem defaults_rel (env : Env) (tp : String) (s : State) :
    ((sanitizeOptions env tp s).st.Options.BigKeyThreshold = s.Options.BigKeyThreshold ∨
      (s.Options.BigKeyThreshold = 0 ∧
        (sanitizeOptions env tp s).st.Options.BigKeyThreshold = 50 * env.MB)) ∧
    ((sanitizeOptions env tp s).st.Options.HeartbeatInterval = s.Options.HeartbeatInterval ∨
      (s.Options.HeartbeatInterval = 0 ∧
        (sanitizeOptions env tp s).st.Options.HeartbeatInterval = 10)) ∧
    ((sanitizeOptions env tp s).st.Options.HttpProfile = s.Options.HttpProfile ∨
      (s.Options.HttpProfile = 0 ∧ (sanitizeOptions env tp s).st.Options.HttpProfile = 9320)) ∧
    ((sanitizeOptions env tp s).st.Options.SystemProfile = s.Options.SystemProfile ∨
      (s.Options.SystemProfile = 0 ∧
        (sanitizeOptions env tp s).st.Options.SystemProfile = 9310)) ∧
    ((sanitizeOptions env tp s).st.Options.SenderSize = s.Options.SenderSize ∨
      (s.Options.SenderSize = 0 ∧ (sanitizeOptions env tp s).st.Options.SenderSize = 65535)) ∧
    ((sanitizeOptions env tp s).st.Options.SenderCount = s.Options.SenderCount ∨
      (s.Options.SenderCount = 0 ∧ (sanitizeOptions env tp s).st.Options.SenderCount = 1024)) ∧
    ((sanitizeOptions env tp s).st.Options.SenderDelayChannelSize =
        s.Options.SenderDelayChannelSize ∨
      (s.Options.SenderDelayChannelSize = 0 ∧
        (sanitizeOptions env tp s).st.Options.SenderDelayChannelSize = 32)) ∧
    ((sanitizeOptions env tp s).st.Options.ScanKeyNumber = s.Options.ScanKeyNumber ∨
      (tp = TypeRump ∧ s.Options.ScanKeyNumber = 0 ∧
        (sanitizeOptions env tp s).st.Options.ScanKeyNumber = 100)) := by
  refine runSteps_rel
    (fun a b =>
      (b.Options.BigKeyThreshold = a.Options.BigKeyThreshold ∨
        (a.Options.BigKeyThreshold = 0 ∧ b.Options.BigKeyThreshold = 50 * env.MB)) ∧
      (b.Options.HeartbeatInterval = a.Options.HeartbeatInterval ∨
        (a.Options.HeartbeatInterval = 0 ∧ b.Options.HeartbeatInterval = 10)) ∧
      (b.Options.HttpProfile = a.Options.HttpProfile ∨
        (a.Options.HttpProfile = 0 ∧ b.Options.HttpProfile = 9320)) ∧
      (b.Options.SystemProfile = a.Options.SystemProfile ∨
        (a.Options.SystemProfile = 0 ∧ b.Options.SystemProfile = 9310)) ∧
      (b.Options.SenderSize = a.Options.SenderSize ∨
        (a.Options.SenderSize = 0 ∧ b.Options.SenderSize = 65535)) ∧
      (b.Options.SenderCount = a.Options.SenderCount ∨
        (a.Options.SenderCount = 0 ∧ b.Options.SenderCount = 1024)) ∧
      (b.Options.SenderDelayChannelSize = a.Options.SenderDelayChannelSize ∨
        (a.Options.SenderDelayChannelSize = 0 ∧ b.Options.SenderDelayChannelSize = 32)) ∧
      (b.Options.ScanKeyNumber = a.Options.ScanKeyNumber ∨
        (tp = TypeRump ∧ a.Options.ScanKeyNumber = 0 ∧ b.Options.ScanKeyNumber = 100)))
    (fun _ => ⟨Or.inl rfl, Or.inl rfl, Or.inl rfl, Or.inl rfl, Or.inl rfl, Or.inl rfl,
      Or.inl rfl, Or.inl rfl⟩)
    ?_ (steps env tp) ?_ s
  · rintro a b c ⟨h1, h2, h3, h4, h5, h6, h7, h8⟩ ⟨k1, k2, k3, k4, k5, k6, k7, k8⟩
    refine ⟨keepOrDefault_trans _ _ _ _ h1 k1, keepOrDefault_trans _ _ _ _ h2 k2,
      keepOrDefault_trans _ _ _ _ h3 k3, keepOrDefault_trans _ _ _ _ h4 k4,
      keepOrDefault_trans _ _ _ _ h5 k5, keepOrDefault_trans _ _ _ _ h6 k6,
      keepOrDefault_trans _ _ _ _ h7 k7, ?_⟩
    rcases h8 with h | ⟨ht, h, h'⟩ <;> rcases k8 with k | ⟨_, k, k'⟩
    · exact Or.inl (k.trans h)
    · exact Or.inr ⟨by assumption, by rw [← h]; exact k, k'⟩
    · exact Or.inr ⟨ht, h, k.trans h'⟩
    · exact Or.inr ⟨ht, h, k'⟩
  · apply steps_forall env tp (fun f => ∀ a,
      ((f a).st.Options.BigKeyThreshold = a.Options.BigKeyThreshold ∨
        (a.Options.BigKeyThreshold = 0 ∧ (f a).st.Options.BigKeyThreshold = 50 * env.MB)) ∧
      ((f a).st.Options.HeartbeatInterval = a.Options.HeartbeatInterval ∨
        (a.Options.HeartbeatInterval = 0 ∧ (f a).st.Options.HeartbeatInterval = 10)) ∧
      ((f a).st.Options.HttpProfile = a.Options.HttpProfile ∨
        (a.Options.HttpProfile = 0 ∧ (f a).st.Options.HttpProfile = 9320)) ∧
      ((f a).st.Options.SystemProfile = a.Options.SystemProfile ∨
        (a.Options.SystemProfile = 0 ∧ (f a).st.Options.SystemProfile = 9310)) ∧
      ((f a).st.Options.SenderSize = a.Options.SenderSize ∨
        (a.Options.SenderSize = 0 ∧ (f a).st.Options.SenderSize = 65535)) ∧
      ((f a).st.Options.SenderCount = a.Options.SenderCount ∨
        (a.Options.SenderCount = 0 ∧ (f a).st.Options.SenderCount = 1024)) ∧
      ((f a).st.Options.SenderDelayChannelSize = a.Options.SenderDelayChannelSize ∨
        (a.Options.SenderDelayChannelSize = 0 ∧
          (f a).st.Options.SenderDelayChannelSize = 32)) ∧
      ((f a).st.Options.ScanKeyNumber = a.Options.ScanKeyNumber ∨
        (tp = TypeRump ∧ a.Options.ScanKeyNumber = 0 ∧ (f a).st.Options.ScanKeyNumber = 100)))
    all_goals
      intro s
      simp only [checkType, checkId, checkNCpu, checkParallel, checkBigKeyThreshold,
        checkTargetAddress, checkSourceAddress, checkRumpAddress, checkSourcePassword,
        checkTargetPassword, setLogFile, setLogLevel, checkHeartbeatInterval, setHeartbeatIp,
        setFakeTime, setFilterDB, checkFilterSlot, setTargetDB, checkHttpProfile,
        checkSystemProfile, checkSenderSize, checkSenderCount, setSenderDelayChannelSize,
        getTargetVersion, afterVersionQuery, checkRump, setScanKeyNumber, defaultHttpPort,
        defaultSystemPort, defaultSenderSize, defaultSenderCount]
      repeat' (first
        | exact ⟨Or.inl rfl, Or.inl rfl, Or.inl rfl, Or.inl rfl, Or.inl rfl, Or.inl rfl,
            Or.inl rfl, Or.inl rfl⟩
        | (simp_all; done)
        | split)

/-- Once set, none of the defaulted options is reset by a later block, and a valid
`HttpProfile` stays valid. -/
theorem steps_preserve (env : Env) (tp : String) :
    ∀ f ∈ steps env tp, ∀ s,
      (s.Options.BigKeyThreshold ≠ 0 → (f s).st.Options.BigKeyThreshold ≠ 0) ∧
      (s.Options.HeartbeatInterval ≠ 0 → (f s).st.Options.HeartbeatInterval ≠ 0) ∧
      (s.Options.HttpProfile ≠ 0 → (f s).st.Options.HttpProfile ≠ 0) ∧
      (s.Options.SystemProfile ≠ 0 → (f s).st.Options.SystemProfile ≠ 0) ∧
      (s.Options.SenderSize ≠ 0 → (f s).st.Options.SenderSize ≠ 0) ∧
      (s.Options.SenderCount ≠ 0 → (f s).st.Options.SenderCount ≠ 0) ∧
      (s.Options.SenderDelayChannelSize ≠ 0 → (f s).st.Options.SenderDelayChannelSize ≠ 0) ∧
      (s.Options.ScanKeyNumber ≠ 0 → (f s).st.Options.ScanKeyNumber ≠ 0) ∧
      (1 ≤ s.Options.HttpProfile ∧ s.Options.HttpProfile ≤ 65535 →
        1 ≤ (f s).st.Options.HttpProfile ∧ (f s).st.Options.HttpProfile ≤ 65535) := by
  apply steps_forall env tp (fun f => ∀ s,
      (s.Options.BigKeyThreshold ≠ 0 → (f s).st.Options.BigKeyThreshold ≠ 0) ∧
      (s.Options.HeartbeatInterval ≠ 0 → (f s).st.Options.HeartbeatInterval ≠ 0) ∧
      (s.Options.HttpProfile ≠ 0 → (f s).st.Options.HttpProfile ≠ 0) ∧
      (s.Options.SystemProfile ≠ 0 → (f s).st.Options.SystemProfile ≠ 0) ∧
      (s.Options.SenderSize ≠ 0 → (f s).st.Options.SenderSize ≠ 0) ∧
      (s.Options.SenderCount ≠ 0 → (f s).st.Options.SenderCount ≠ 0) ∧
      (s.Options.SenderDelayChannelSize ≠ 0 → (f s).st.Options.SenderDelayChannelSize ≠ 0) ∧
      (s.Options.ScanKeyNumber ≠ 0 → (f s).st.Options.ScanKeyNumber ≠ 0) ∧
      (1 ≤ s.Options.HttpProfile ∧ s.Options.HttpProfile ≤ 65535 →
        1 ≤ (f s).st.Options.HttpProfile ∧ (f s).st.Options.HttpProfile ≤ 65535))
  all_goals
    intro s
    simp only [checkType, checkId, checkNCpu, checkParallel, checkBigKeyThreshold,
      checkTargetAddress, checkSourceAddress, checkRumpAddress, checkSourcePassword,
      checkTargetPassword, setLogFile, setLogLevel, checkHeartbeatInterval, setHeartbeatIp,
      setFakeTime, setFilterDB, checkFilterSlot, setTargetDB, checkHttpProfile,
      checkSystemProfile, checkSenderSize, checkSenderCount, setSenderDelayChannelSize,
      getTargetVersion, afterVersionQuery, checkRump, setScanKeyNumber, defaultHttpPort,
      defaultSystemPort, defaultSenderSize, defaultSenderCount]
    repeat' (first
      | split
      | exact ⟨id, id, id, id, id, id, id, id, id⟩
      | simp_all)

/-- The defaulting blocks are blocks of `sanitizeOptions`. -/
theorem mem_steps (env : Env) (tp : String) :
    checkBigKeyThreshold env ∈ steps env tp ∧ checkHeartbeatInterval ∈ steps env tp ∧
    checkHttpProfile ∈ steps env tp ∧ checkSystemProfile ∈ steps env tp ∧
    checkSenderSize ∈ steps env tp ∧ checkSenderCount ∈ steps env tp ∧
    setSenderDelayChannelSize ∈ steps env tp ∧ checkRump env tp ∈ steps env tp := by
  simp [steps, stepsBeforeAddress, stepsFromAddress]

/-- Each defaulting block, when it succeeds, leaves its option non-zero. -/
theorem blocks_nonzero (env : Env) (tp : String) (hMB : env.MB ≠ 0) :
    (∀ t, (checkBigKeyThreshold env t).err = none →
      (checkBigKeyThreshold env t).st.Options.BigKeyThreshold ≠ 0) ∧
    (∀ t, (checkHeartbeatInterval t).err = none →
      (checkHeartbeatInterval t).st.Options.HeartbeatInterval ≠ 0) ∧
    (∀ t, (checkHttpProfile t).err = none → (checkHttpProfile t).st.Options.HttpProfile ≠ 0) ∧
    (∀ t, (checkSystemProfile t).err = none →
      (checkSystemProfile t).st.Options.SystemProfile ≠ 0) ∧
    (∀ t, (checkSenderSize t).err = none → (checkSenderSize t).st.Options.SenderSize ≠ 0) ∧
    (∀ t, (checkSenderCount t).err = none → (checkSenderCount t).st.Options.SenderCount ≠ 0) ∧
    (∀ t, (setSenderDelayChannelSize t).err = none →
      (setSenderDelayChannelSize t).st.Options.SenderDelayChannelSize ≠ 0) ∧
    (tp = TypeRump → ∀ t, (checkRump env tp t).err = none →
      (checkRump env tp t).st.Options.ScanKeyNumber ≠ 0) := by
  refine ⟨?_, ?_, ?_, ?_, ?_, ?_, ?_, ?_⟩
  case refine_8 =>
    intro htp t
    have hk : (setScanKeyNumber t).Options.ScanKeyNumber ≠ 0 := by
      unfold setScanKeyNumber
      split
      · simp
      · assumption
    simp only [checkRump, if_pos htp]
    repeat' (first | split | (intro h; cases h; done) | exact fun _ => hk)
  all_goals
    intro t
    simp only [checkBigKeyThreshold, checkHeartbeatInterval, checkHttpProfile,
      checkSystemProfile, checkSenderSize, checkSenderCount, setSenderDelayChannelSize,
      defaultHttpPort, defaultSystemPort, defaultSenderSize, defaultSenderCount]
    repeat' (first | split | simp_all)

/-- After a successful run none of the defaulted options is zero. -/
theorem nonzero_after (env : Env) (tp : String) (s : State) (hMB : env.MB ≠ 0)
    (hok : (sanitizeOptions env tp s).err = none) :
    (sanitizeOptions env tp s).st.Options.BigKeyThreshold ≠ 0 ∧
    (sanitizeOptions env tp s).st.Options.HeartbeatInterval ≠ 0 ∧
    (sanitizeOptions env tp s).st.Options.HttpProfile ≠ 0 ∧
    (sanitizeOptions env tp s).st.Options.SystemProfile ≠ 0 ∧
    (sanitizeOptions env tp s).st.Options.SenderSize ≠ 0 ∧
    (sanitizeOptions env tp s).st.Options.SenderCount ≠ 0 ∧
    (sanitizeOptions env tp s).st.Options.SenderDelayChannelSize ≠ 0 ∧
    (tp = TypeRump → (sanitizeOptions env tp s).st.Options.ScanKeyNumber ≠ 0) := by
  obtain ⟨m1, m2, m3, m4, m5, m6, m7, m8⟩ := mem_steps env tp
  obtain ⟨e1, e2, e3, e4, e5, e6, e7, e8⟩ := blocks_nonzero env tp hMB
  have hp := steps_preserve env tp
  unfold sanitizeOptions at hok ⊢
  exact ⟨
    runSteps_establish (fun t => t.Options.BigKeyThreshold ≠ 0) _ (steps env tp) m1 e1
      (fun f hf t => (hp f hf t).1) s hok,
    runSteps_establish (fun t => t.Options.HeartbeatInterval ≠ 0) _ (steps env tp) m2 e2
      (fun f hf t => (hp f hf t).2.1) s hok,
    runSteps_establish (fun t => t.Options.HttpProfile ≠ 0) _ (steps env tp) m3 e3
      (fun f hf t => (hp f hf t).2.2.1) s hok,
    runSteps_establish (fun t => t.Options.SystemProfile ≠ 0) _ (steps env tp) m4 e4
      (fun f hf t => (hp f hf t).2.2.2.1) s hok,
    runSteps_establish (fun t => t.Options.SenderSize ≠ 0) _ (steps env tp) m5 e5
      (fun f hf t => (hp f hf t).2.2.2.2.1) s hok,
    runSteps_establish (fun t => t.Options.SenderCount ≠ 0) _ (steps env tp) m6 e6
      (fun f hf t => (hp f hf t).2.2.2.2.2.1) s hok,
    runSteps_establish (fun t => t.Options.SenderDelayChannelSize ≠ 0) _ (steps env tp) m7 e7
      (fun f hf t => (hp f hf t).2.2.2.2.2.2.1) s hok,
    fun htp => runSteps_establish (fun t => t.Options.ScanKeyNumber ≠ 0) _ (steps env tp) m8
      (e8 htp) (fun f hf t => (hp f hf t).2.2.2.2.2.2.2.1) s hok⟩

/-- After a successful run `HttpProfile` is a port number in `[1, 65535]`. -/
theorem httpProfile_after (env : Env) (tp : String) (s : State)
    (hok : (sanitizeOptions env tp s).err = none) :
    1 ≤ (sanitizeOptions env tp s).st.Options.HttpProfile ∧
      (sanitizeOptions env tp s).st.Options.HttpProfile ≤ 65535 := by
  unfold sanitizeOptions at hok ⊢
  refine runSteps_establish
    (fun t => 1 ≤ t.Options.HttpProfile ∧ t.Options.HttpProfile ≤ 65535) _ (steps env tp)
    (mem_steps env tp).2.2.1 ?_ (fun f hf t => (steps_preserve env tp f hf t).2.2.2.2.2.2.2.2)
    s hok
  intro t
  simp only [checkHttpProfile, defaultHttpPort]
  repeat' (first | split | (simp_all; done) | (intro _; dsimp only; omega))

/-- A sender limit or profile port that lies in its accepted range (and is set) stays so
through every block. -/
theorem steps_preserve_ranges (env : Env) (tp : String) :
    ∀ f ∈ steps env tp, ∀ s,
      (1 ≤ s.Options.SenderSize ∧ s.Options.SenderSize < 1073741824 →
        1 ≤ (f s).st.Options.SenderSize ∧ (f s).st.Options.SenderSize < 1073741824) ∧
      (1 ≤ s.Options.SenderCount ∧ s.Options.SenderCount < 100000 →
        1 ≤ (f s).st.Options.SenderCount ∧ (f s).st.Options.SenderCount < 100000) ∧
      (1 ≤ s.Options.SystemProfile ∧ s.Options.SystemProfile ≤ 65535 →
        1 ≤ (f s).st.Options.SystemProfile ∧ (f s).st.Options.SystemProfile ≤ 65535) := by
  apply steps_forall env tp (fun f => ∀ s,
      (1 ≤ s.Options.SenderSize ∧ s.Options.SenderSize < 1073741824 →
        1 ≤ (f s).st.Options.SenderSize ∧ (f s).st.Options.SenderSize < 1073741824) ∧
      (1 ≤ s.Options.SenderCount ∧ s.Options.SenderCount < 100000 →
        1 ≤ (f s).st.Options.SenderCount ∧ (f s).st.Options.SenderCount < 100000) ∧
      (1 ≤ s.Options.SystemProfile ∧ s.Options.SystemProfile ≤ 65535 →
        1 ≤ (f s).st.Options.SystemProfile ∧ (f s).st.Options.SystemProfile ≤ 65535))
  all_goals
    intro s
    simp only [checkType, checkId, checkNCpu, checkParallel, checkBigKeyThreshold,
      checkTargetAddress, checkSourceAddress, checkRumpAddress, checkSourcePassword,
      checkTargetPassword, setLogFile, setLogLevel, checkHeartbeatInterval, setHeartbeatIp,
      setFakeTime, setFilterDB, checkFilterSlot, setTargetDB, checkHttpProfile,
      checkSystemProfile, checkSenderSize, checkSenderCount, setSenderDelayChannelSize,
      getTargetVersion, afterVersionQuery, checkRump, setScanKeyNumber, defaultHttpPort,
      defaultSystemPort, defaultSenderSize, defaultSenderCount]
    repeat' (first
      | split
      | exact ⟨id, id, id⟩
      | simp_all)

/-- Each range check, when it passes, leaves its option set and inside the range the
comparison enforces. -/
theorem blocks_ranges :
    (∀ t, (checkSenderSize t).err = none →
      1 ≤ (checkSenderSize t).st.Options.SenderSize ∧
        (checkSenderSize t).st.Options.SenderSize < 1073741824) ∧
    (∀ t, (checkSenderCount t).err = none →
      1 ≤ (checkSenderCount t).st.Options.SenderCount ∧
        (checkSenderCount t).st.Options.SenderCount < 100000) ∧
    (∀ t, (checkSystemProfile t).err = none →
      1 ≤ (checkSystemProfile t).st.Options.SystemProfile ∧
        (checkSystemProfile t).st.Options.SystemProfile ≤ 65535) := by
  refine ⟨?_, ?_, ?_⟩
  all_goals
    intro t
    simp only [checkSystemProfile, checkSenderSize, checkSenderCount,
      defaultSystemPort, defaultSenderSize, defaultSenderCount]
    repeat' (first | split | (simp_all; done) | (intro _; dsimp only; omega))

/-- What `sanitizeOptions` accepts: on success the entry values satisfy
`0 ≤ SenderSize < 1073741824`, `0 ≤ SenderCount < 100000`, and `HttpProfile`,
`SystemProfile` in `[0, 65535]`. -/
theorem accepted_ranges (env : Env) (tp : String) (s : State)
    (hok : (sanitizeOptions env tp s).err = none) :
    (0 ≤ s.Options.SenderSize ∧ s.Options.SenderSize < 1073741824) ∧
    (0 ≤ s.Options.SenderCount ∧ s.Options.SenderCount < 100000) ∧
    (0 ≤ s.Options.HttpProfile ∧ s.Options.HttpProfile ≤ 65535) ∧
    (0 ≤ s.Options.SystemProfile ∧ s.Options.SystemProfile ≤ 65535) := by
  obtain ⟨_, _, _, m4, m5, m6, _, _⟩ := mem_steps env tp
  obtain ⟨e1, e2, e3⟩ := blocks_ranges
  obtain ⟨_, _, r3, r4, r5, r6, _, _⟩ := defaults_rel env tp s
  have h3 := httpProfile_after env tp s hok
  have hp := steps_preserve_ranges env tp
  unfold sanitizeOptions at hok r3 r4 r5 r6 h3
  have h5 := runSteps_establish
    (fun t => 1 ≤ t.Options.SenderSize ∧ t.Options.SenderSize < 1073741824) _ (steps env tp)
    m5 e1 (fun f hf t => (hp f hf t).1) s hok
  have h6 := runSteps_establish
    (fun t => 1 ≤ t.Options.SenderCount ∧ t.Options.SenderCount < 100000) _ (steps env tp)
    m6 e2 (fun f hf t => (hp f hf t).2.1) s hok
  have h4 := runSteps_establish
    (fun t => 1 ≤ t.Options.SystemProfile ∧ t.Options.SystemProfile ≤ 65535) _ (steps env tp)
    m4 e3 (fun f hf t => (hp f hf t).2.2) s hok
  simp only at h4 h5 h6
  refine ⟨?_, ?_, ?_, ?_⟩
  · rcases r5 with h | ⟨h, _⟩ <;> omega
  · rcases r6 with h | ⟨h, _⟩ <;> omega
  · rcases r3 with h | ⟨h, _⟩ <;> omega
  · rcases r4 with h | ⟨h, _⟩ <;> omega

/-- The first three blocks leave `Parallel` and `NCpu` alone, and pass only with `NCpu` in
`[0, 1024]`. -/
theorem before_parallel (env : Env) (tp : String) (s : State)
    (h : (runSteps [checkType tp, checkId, checkNCpu env] s).err = none) :
    (runSteps [checkType tp, checkId, checkNCpu env] s).st.Options.Parallel =
        s.Options.Parallel ∧
      (runSteps [checkType tp, checkId, checkNCpu env] s).st.Options.NCpu = s.Options.NCpu ∧
      0 ≤ s.Options.NCpu ∧ s.Options.NCpu ≤ 1024 := by
  by_cases h1 : tp ≠ TypeDecode ∧ tp ≠ TypeRestore ∧ tp ≠ TypeDump ∧ tp ≠ TypeSync ∧
      tp ≠ TypeRump
  · simp [runSteps, checkType, h1] at h
  by_cases h2 : s.Options.Id = ""
  · simp [runSteps, checkType, h1, checkId, h2] at h
  by_cases h3 : s.Options.NCpu < 0 ∨ s.Options.NCpu > 1024
  · simp [runSteps, checkType, h1, checkId, h2, checkNCpu, h3] at h
  have k1 : checkType tp s = ⟨none, s⟩ := by simp only [checkType, if_neg h1]
  have k2 : checkId s = ⟨none, s⟩ := by simp only [checkId, if_neg h2]
  rw [runSteps_cons_ok _ _ _ (by rw [k1]), k1, runSteps_cons_ok _ _ _ (by rw [k2]), k2]
  refine ⟨?_, ?_, by omega, by omega⟩
  all_goals
    simp only [runSteps, checkNCpu, if_neg h3]
    repeat' (first | rfl | split)

/-- No block after `checkParallel` touches `Parallel`. -/
theorem parallel_frame (env : Env) (tp : String) :
    ∀ f ∈ checkBigKeyThreshold env :: (stepsFromAddress env tp ++
        [getTargetVersion env tp, checkRump env tp]),
      ∀ s, (f s).st.Options.Parallel = s.Options.Parallel := by
  simp only [stepsFromAddress, List.cons_append, List.nil_append, List.forall_mem_cons]
  refine ⟨?_, ?_, ?_, ?_, ?_, ?_, ?_, ?_, ?_, ?_, ?_, ?_, ?_, ?_, ?_, ?_, ?_, ?_, ?_, ?_, ?_,
    fun _ h => by cases h⟩
  all_goals
    intro s
    simp only [checkBigKeyThreshold,
      checkTargetAddress, checkSourceAddress, checkRumpAddress, checkSourcePassword,
      checkTargetPassword, setLogFile, setLogLevel, checkHeartbeatInterval, setHeartbeatIp,
      setFakeTime, setFilterDB, checkFilterSlot, setTargetDB, checkHttpProfile,
      checkSystemProfile, checkSenderSize, checkSenderCount, setSenderDelayChannelSize,
      getTargetVersion, afterVersionQuery, checkRump, setScanKeyNumber]
    repeat' (first | rfl | split)

/-- What `sanitizeOptions` does with `Parallel`: on success it is 64 when it was 0 and the
maximum of its entry value and `NCpu` otherwise; it lies in `[0, 1024]`, and it is 0 exactly
when the entry value was negative and `NCpu` was 0. -/
theorem parallel_after (env : Env) (tp : String) (s : State)
    (hok : (sanitizeOptions env tp s).err = none) :
    (sanitizeOptions env tp s).st.Options.Parallel =
        (if s.Options.Parallel = 0 then 64 else max s.Options.Parallel s.Options.NCpu) ∧
      0 ≤ (sanitizeOptions env tp s).st.Options.Parallel ∧
      (sanitizeOptions env tp s).st.Options.Parallel ≤ 1024 ∧
      ((sanitizeOptions env tp s).st.Options.Parallel = 0 ↔
        s.Options.Parallel < 0 ∧ s.Options.NCpu = 0) := by
  have hsplit : steps env tp = [checkType tp, checkId, checkNCpu env] ++
      (checkParallel :: checkBigKeyThreshold env :: (stepsFromAddress env tp ++
        [getTargetVersion env tp, checkRump env tp])) := rfl
  unfold sanitizeOptions at hok ⊢
  rw [hsplit] at hok ⊢
  have hpre := runSteps_append_ok_left _ _ s hok
  obtain ⟨hP, hN, hN0, hN1⟩ := before_parallel env tp s hpre
  rw [runSteps_append_ok _ _ s hpre] at hok ⊢
  generalize (runSteps [checkType tp, checkId, checkNCpu env] s).st = s1 at hP hN hok ⊢
  rw [← hN] at hN0 hN1
  rw [← hP, ← hN]
  have hframe : ∀ t, (runSteps (checkBigKeyThreshold env :: (stepsFromAddress env tp ++
      [getTargetVersion env tp, checkRump env tp])) t).st.Options.Parallel =
      t.Options.Parallel := fun t =>
    runSteps_rel (fun a b => b.Options.Parallel = a.Options.Parallel) (fun _ => rfl)
      (fun _ _ _ hab hbc => hbc.trans hab) _ (parallel_frame env tp) t
  by_cases h0 : s1.Options.Parallel = 0
  · have k : checkParallel s1 =
        ⟨none, { s1 with Options := { s1.Options with Parallel := 64 } }⟩ := by
      simp only [checkParallel, if_pos h0]
    rw [runSteps_cons_ok _ _ _ (by rw [k]), k, hframe, if_pos h0]
    refine ⟨rfl, by norm_num, by norm_num, ?_⟩
    constructor
    · intro h
      norm_num at h
    · rintro ⟨h, _⟩
      omega
  · by_cases h1 : s1.Options.Parallel > 1024
    · have k : (checkParallel s1).err = some (.parallelRange s1.Options.Parallel) := by
        simp only [checkParallel, if_neg h0, if_pos h1]
      rw [runSteps_cons_err _ _ _ _ k] at hok
      cases hok
    · have k : checkParallel s1 = ⟨none, { s1 with Options := { s1.Options with
          Parallel := max s1.Options.Parallel s1.Options.NCpu } }⟩ := by
        simp only [checkParallel, if_neg h0, if_neg h1]
      rw [runSteps_cons_ok _ _ _ (by rw [k]), k, hframe, if_neg h0]
      simp only
      rcases le_total s1.Options.Parallel s1.Options.NCpu with h | h
      · rw [max_eq_right h]
        refine ⟨trivial, by omega, by omega, ?_⟩
        constructor
        · intro h2
          omega
        · rintro ⟨_, h2⟩
          exact h2
      · rw [max_eq_left h]
        refine ⟨trivial, by omega, by omega, ?_⟩
        constructor
        · intro h2
          exact absurd h2 h0
        · rintro ⟨h2, h3⟩
          omega

/-! ## The claims -/

/-- Claim C1: when `sanitizeOptions` returns an error of one of its option checks, the list
of network calls is the one it started with (`utils.GetRedisVersion` was not called); and in
`main`, whatever function the call `SanitizeOptions(*tp)` of line 83 resolves to, every
`go startHttpServer()` or `runner.Main()` step comes after the step where that call returned
`nil`, and the HTTP goroutine exists only if it returned `nil`; so when the call resolves to
`sanitizeOptions`, both are reached only after `sanitizeOptions` returned without error. -/
theorem validation_precedes_network (env : Env) :
    (∀ tp s e, (sanitizeOptions env tp s).err = some e → e.isOptionCheck = true →
      (sanitizeOptions env tp s).st.netCalls = s.netCalls) ∧
    (∀ os flags s pre ev post, (main os flags s).events = pre ++ ev :: post →
      (ev = .goStartHttpServer ∨ ∃ r, ev = .runnerMain r) →
      Event.sanitizeReturned none ∈ pre ∧
        (os.SanitizeOptions flags.tp (loadedState os flags s)).err = none) ∧
    (∀ os flags s r, (main os flags s).http = some r →
      (os.SanitizeOptions flags.tp (loadedState os flags s)).err = none) ∧
    (∀ os flags s, os.SanitizeOptions = sanitizeOptions env →
      (Event.goStartHttpServer ∈ (main os flags s).events ∨
        ∃ r, Event.runnerMain r ∈ (main os flags s).events) →
      (sanitizeOptions env flags.tp (loadedState os flags s)).err = none) := by
  refine ⟨fun tp s e he hchk => sanitizeOptions_netCalls env tp s e he hchk, ?_, ?_, ?_⟩
  · intro os flags s pre ev post hev hkind
    rcases main_cases os flags s with ⟨hok, hmain⟩ | ⟨hno, _⟩
    · refine ⟨?_, hok⟩
      obtain ⟨rest, hrest⟩ := mainAfterSanitize_events os flags
        (os.SanitizeOptions flags.tp (loadedState os flags s)).st
      rw [hmain, hrest] at hev
      cases pre with
      | nil =>
        simp at hev
        rcases hkind with h | ⟨r, h⟩ <;> rw [h] at hev <;> cases hev.1
      | cons x pre =>
        simp at hev
        rw [← hev.1]
        exact List.mem_cons_self _ _
    · have hmem : ev ∈ (main os flags s).events := by rw [hev]; simp
      have := hno ev hmem
      rcases hkind with h | ⟨r, h⟩
      · exact absurd h this.1
      · exact absurd h (this.2 r).1
  · intro os flags s r hr
    rcases main_cases os flags s with ⟨hok, _⟩ | ⟨_, hnone⟩
    · exact hok
    · rw [hnone] at hr
      cases hr
  · intro os flags s hcallee hmem
    rcases main_cases os flags s with ⟨hok, _⟩ | ⟨hno, _⟩
    · rw [hcallee] at hok
      exact hok
    · rcases hmem with h | ⟨r, h⟩
      · exact absurd rfl (hno _ h).1
      · exact absurd rfl ((hno _ h).2 r).1

/-- An option-check error after the version block (`rump` with an unsupported special cloud)
leaves the network untouched, and the sample run of `main` starts the HTTP server only
after `SanitizeOptions` returned `nil`. -/
theorem validation_precedes_network_witness :
    (sanitizeOptions sampleEnv "rump" cloudState).st.netCalls = cloudState.netCalls ∧
    (Event.sanitizeReturned none ∈
        [Event.sanitizeReturned none, Event.initSignal, Event.initFreeOS,
          Event.profiling 9310, Event.welcome, Event.createMetric (some Runner.CmdSync)] ∧
      (sampleOs.SanitizeOptions sampleFlags.tp
        (loadedState sampleOs sampleFlags sampleState)).err = none) ∧
    (sanitizeOptions sampleEnv sampleFlags.tp
      (loadedState sampleOs sampleFlags sampleState)).err = none :=
  ⟨(validation_precedes_network sampleEnv).1 "rump" cloudState (.specialCloud "other")
      (by decide) (by decide),
    (validation_precedes_network sampleEnv).2.1 sampleOs sampleFlags sampleState
      [Event.sanitizeReturned none, Event.initSignal, Event.initFreeOS,
        Event.profiling 9310, Event.welcome, Event.createMetric (some Runner.CmdSync)]
      Event.goStartHttpServer
      [Event.logConfiguration "json", Event.runnerMain (some Runner.CmdSync),
        Event.logFinished, Event.goodbye]
      (by decide) (Or.inl rfl),
    (validation_precedes_network sampleEnv).2.2.2 sampleOs sampleFlags sampleState rfl
      (Or.inl (by decide))⟩

/-- Claim C2: `sanitizeOptions` returns the unknown-type error exactly for the run types
other than `decode`, `restore`, `dump`, `sync`, `rump` (and the error names `tp`); the switch
of `main` gives each of the five its own runner, no runner serving two types; whenever
`sanitizeOptions` succeeds on `tp` the switch yields a runner.  In `main`, every runner
passed to `metric.CreateMetric` or run with `Main` is the one the switch yields for `tp`;
once the steps before line 97 pass, `main` does pass that runner to `metric.CreateMetric`,
and once the configuration is marshalled it does call `Main` on it; and for a `tp` on which
`sanitizeOptions` succeeds that runner is never `nil`. -/
theorem run_modes_map_to_runners (env : Env) :
    (∀ tp s, (∃ x, (sanitizeOptions env tp s).err = some (.unknownType x)) ↔
      (tp ≠ "decode" ∧ tp ≠ "restore" ∧ tp ≠ "dump" ∧ tp ≠ "sync" ∧ tp ≠ "rump")) ∧
    (∀ tp s x, (sanitizeOptions env tp s).err = some (.unknownType x) → x = tp) ∧
    (createRunner "decode" = some .CmdDecode ∧ createRunner "restore" = some .CmdRestore ∧
      createRunner "dump" = some .CmdDump ∧ createRunner "sync" = some .CmdSync ∧
      createRunner "rump" = some .CmdRump) ∧
    (∀ a b r, createRunner a = some r → createRunner b = some r → a = b) ∧
    (∀ tp s, (sanitizeOptions env tp s).err = none → ∃ r, createRunner tp = some r) ∧
    (∀ os flags s r, (Event.createMetric r ∈ (main os flags s).events ∨
        Event.runnerMain r ∈ (main os flags s).events) → r = createRunner flags.tp) ∧
    (∀ os flags s, flags.version = false → flags.configuration ≠ "" → flags.tp ≠ "" →
      os.Open flags.configuration = none → os.CheckFcv flags.configuration = none →
      loadError os flags s = none →
      (os.SanitizeOptions flags.tp (loadedState os flags s)).err = none →
      os.WritePidById (os.SanitizeOptions flags.tp (loadedState os flags s)).st.Options.Id
        (os.SanitizeOptions flags.tp (loadedState os flags s)).st.Options.PidPath = none →
      Event.createMetric (createRunner flags.tp) ∈ (main os flags s).events ∧
      (∀ opts, os.Marshal (os.SanitizeOptions flags.tp (loadedState os flags s)).st.Options =
          .ok opts →
        Event.runnerMain (createRunner flags.tp) ∈ (main os flags s).events)) ∧
    (∀ os flags s s1 r, (sanitizeOptions env flags.tp s1).err = none →
      (Event.createMetric r ∈ (main os flags s).events ∨
        Event.runnerMain r ∈ (main os flags s).events) → r ≠ none) := by
  have hrun : ∀ (os : MainEnv) (flags : Flags) (s : State) (r : Option Runner),
      (Event.createMetric r ∈ (main os flags s).events ∨
        Event.runnerMain r ∈ (main os flags s).events) → r = createRunner flags.tp := by
    intro os flags s r hmem
    rcases main_cases os flags s with ⟨_, hmain⟩ | ⟨hno, _⟩
    · rw [hmain] at hmem
      exact mainAfterSanitize_runner os flags _ r hmem
    · rcases hmem with h | h
      · exact absurd rfl ((hno _ h).2 r).2
      · exact absurd rfl ((hno _ h).2 r).1
  refine ⟨?_, ?_, ⟨by decide, by decide, by decide, by decide, by decide⟩, ?_, ?_, hrun,
    ?_, ?_⟩
  · intro tp s
    constructor
    · rintro ⟨x, hx⟩
      by_contra hk
      exact sanitizeOptions_knownType env tp s x hk hx
    · intro hk
      exact ⟨tp, sanitizeOptions_unknownType env tp s hk⟩
  · intro tp s x hx
    by_cases hk : tp ≠ TypeDecode ∧ tp ≠ TypeRestore ∧ tp ≠ TypeDump ∧ tp ≠ TypeSync ∧ tp ≠ TypeRump
    · rw [sanitizeOptions_unknownType env tp s hk] at hx
      simp at hx
      exact hx.symm
    · exact absurd hx (sanitizeOptions_knownType env tp s x hk)
  · intro a b r ha hb
    unfold createRunner at ha hb
    split_ifs at ha hb <;> cases ha <;> cases hb <;> simp_all
  · exact fun tp s h => sanitizeOptions_ok_runner env tp s h
  · intro os flags s hv hc ht ho hk hl hs hw
    rw [main_reaches os flags s hv hc ht ho hk hl hs]
    obtain ⟨h1, _, h3⟩ := mainAfterSanitize_reaches os flags _ hw
    exact ⟨h1, h3⟩
  · intro os flags s s1 r hok hmem
    obtain ⟨r0, hr0⟩ := sanitizeOptions_ok_runner env flags.tp s1 hok
    rw [hrun os flags s r hmem, hr0]
    simp

/-- The sample `sync` run of `main` passes every step before line 97, so it gives
`CmdSync` to `metric.CreateMetric` and calls its `Main`. -/
theorem run_modes_map_to_runners_witness :
    Event.createMetric (createRunner sampleFlags.tp) ∈
        (main sampleOs sampleFlags sampleState).events ∧
    (∀ opts, sampleOs.Marshal (sampleOs.SanitizeOptions sampleFlags.tp
        (loadedState sampleOs sampleFlags sampleState)).st.Options = .ok opts →
      Event.runnerMain (createRunner sampleFlags.tp) ∈
        (main sampleOs sampleFlags sampleState).events) :=
  (run_modes_map_to_runners sampleEnv).2.2.2.2.2.2.1 sampleOs sampleFlags sampleState
    rfl (by decide) (by decide) rfl rfl rfl (by decide) rfl

/-- Claim C3 as stated fails: with `FilterDB = "-1"` the run succeeds, the integer written
is `-1`, and the installed predicate accepts database index `4294967295`, which is not
`-1`. -/
theorem filterDB_negative_counterexample :
    (sanitizeOptions sampleEnv "sync" filterMinusOneState).err = none ∧
    parseInt filterMinusOneState.Options.FilterDB 32 = .ok (-1) ∧
    (sanitizeOptions sampleEnv "sync" filterMinusOneState).st.AcceptDB 4294967295 = true ∧
    ((4294967295 : Nat) : Int) ≠ -1 :=
  ⟨by decide, rfl, by decide, by decide⟩

/-- Claim C3, amended: after a successful `sanitizeOptions` with a non-empty `FilterDB`,
the string parses (base 10, 32 bits) to an integer `n`, and `base.AcceptDB` accepts `db`
exactly when `db` equals `n` modulo `2^32`, the value of `uint32(n)`; for `n ≥ 0` that is
`db = n`.  With an empty `FilterDB`, `base.AcceptDB` is left as it was. -/
theorem filterDB_predicate (env : Env) (tp : String) (s : State) :
    (s.Options.FilterDB ≠ "" → (sanitizeOptions env tp s).err = none →
      ∃ n : Int, parseInt s.Options.FilterDB 32 = .ok n ∧
        (∀ db : Nat, (sanitizeOptions env tp s).st.AcceptDB db = true ↔
          (db : Int) = n % 4294967296) ∧
        (0 ≤ n → ∀ db : Nat, (sanitizeOptions env tp s).st.AcceptDB db = true ↔ (db : Int) = n)) ∧
    (s.Options.FilterDB = "" → (sanitizeOptions env tp s).st.AcceptDB = s.AcceptDB) := by
  have hframe := acceptDB_frame env tp s
  refine ⟨fun hne hok => ?_, hframe.2⟩
  obtain ⟨n, hn, hacc⟩ := acceptDB_installed env tp s hok (by rw [hframe.1]; exact hne)
  rw [hframe.1] at hn
  have hrange := parseInt_range _ n hn
  refine ⟨n, hn, fun db => ?_, fun h0 db => ?_⟩
  · rw [hacc db, decide_eq_true_eq]
    exact toUint32_eq n db
  · rw [hacc db, decide_eq_true_eq, toUint32_eq n db, Int.emod_eq_of_lt h0 (by omega)]

/-- With `FilterDB = "1"` the installed predicate is equality with an integer the string
parses to. -/
theorem filterDB_predicate_witness :
    ∃ n : Int, parseInt filterOneState.Options.FilterDB 32 = .ok n ∧
      (∀ db : Nat, (sanitizeOptions sampleEnv "sync" filterOneState).st.AcceptDB db = true ↔
        (db : Int) = n % 4294967296) ∧
      (0 ≤ n → ∀ db : Nat,
        (sanitizeOptions sampleEnv "sync" filterOneState).st.AcceptDB db = true ↔
          (db : Int) = n) :=
  (filterDB_predicate sampleEnv "sync" filterOneState).1 (by decide) (by decide)

/-- Claim C4: for `restore` and `sync`, once the blocks before line 358 have passed, a
version query that succeeds makes `sanitizeOptions` succeed with `TargetRedisVersion` the
returned string and `TargetReplace` true exactly when that string starts with `3.` or `4.`;
a query that fails makes it return the version error.  For `decode`, `dump` and `rump`
neither `TargetRedisVersion` nor `TargetReplace` changes, on any path. -/
theorem target_replace_flag (env : Env) (tp : String) (s : State) :
    ((tp = "restore" ∨ tp = "sync") → (beforeVersionQuery env tp s).err = none →
      ((env.GetRedisVersion (beforeVersionQuery env tp s).st.Options.TargetAddress
          (beforeVersionQuery env tp s).st.Options.TargetAuthType
          (beforeVersionQuery env tp s).st.Options.TargetPasswordRaw).2 = none →
        (sanitizeOptions env tp s).err = none ∧
        (sanitizeOptions env tp s).st.Options.TargetRedisVersion =
          (env.GetRedisVersion (beforeVersionQuery env tp s).st.Options.TargetAddress
            (beforeVersionQuery env tp s).st.Options.TargetAuthType
            (beforeVersionQuery env tp s).st.Options.TargetPasswordRaw).1 ∧
        ((sanitizeOptions env tp s).st.Options.TargetReplace = true ↔
          ((∃ rest, (sanitizeOptions env tp s).st.Options.TargetRedisVersion = "3." ++ rest) ∨
            ∃ rest, (sanitizeOptions env tp s).st.Options.TargetRedisVersion = "4." ++ rest))) ∧
      (∀ e, (env.GetRedisVersion (beforeVersionQuery env tp s).st.Options.TargetAddress
          (beforeVersionQuery env tp s).st.Options.TargetAuthType
          (beforeVersionQuery env tp s).st.Options.TargetPasswordRaw).2 = some e →
        (sanitizeOptions env tp s).err = some (.getVersionFailed e))) ∧
    ((tp = "decode" ∨ tp = "dump" ∨ tp = "rump") →
      (sanitizeOptions env tp s).st.Options.TargetRedisVersion = s.Options.TargetRedisVersion ∧
        (sanitizeOptions env tp s).st.Options.TargetReplace = s.Options.TargetReplace) := by
  constructor
  · intro htp hpre
    have hrun : sanitizeOptions env tp s =
        runSteps [getTargetVersion env tp, checkRump env tp] (beforeVersionQuery env tp s).st := by
      unfold sanitizeOptions steps beforeVersionQuery at *
      exact runSteps_append_ok _ _ s hpre
    have htail := versionQuery_tail env tp (beforeVersionQuery env tp s).st htp
    rw [hrun]
    refine ⟨fun hq => ?_, htail.2⟩
    obtain ⟨h1, h2, h3⟩ := htail.1 hq
    refine ⟨h1, h2, ?_⟩
    rw [h3, h2, Bool.or_eq_true, startsWith_iff, startsWith_iff]
  · intro htp
    apply targetVersion_frame
    rcases htp with h | h | h <;> rw [h] <;> decide

/-- The sample `sync` run reaches the version query, which answers `4.0.11`. -/
theorem target_replace_flag_witness :
    (sanitizeOptions sampleEnv "sync" sampleState).err = none ∧
    (sanitizeOptions sampleEnv "sync" sampleState).st.Options.TargetRedisVersion =
      (sampleEnv.GetRedisVersion
        (beforeVersionQuery sampleEnv "sync" sampleState).st.Options.TargetAddress
        (beforeVersionQuery sampleEnv "sync" sampleState).st.Options.TargetAuthType
        (beforeVersionQuery sampleEnv "sync" sampleState).st.Options.TargetPasswordRaw).1 ∧
    ((sanitizeOptions sampleEnv "sync" sampleState).st.Options.TargetReplace = true ↔
      ((∃ rest, (sanitizeOptions sampleEnv "sync" sampleState).st.Options.TargetRedisVersion =
          "3." ++ rest) ∨
        ∃ rest, (sanitizeOptions sampleEnv "sync" sampleState).st.Options.TargetRedisVersion =
          "4." ++ rest)) :=
  ((target_replace_flag sampleEnv "sync" sampleState).1 (Or.inr rfl) (by decide)).1
    (by decide)

/-- Claim C6: when the checks before line 204 pass, `sanitizeOptions` returns an address
error exactly when the target address is empty for `restore`/`sync`, or the source address
is empty for `dump`/`sync`, or either is empty for `rump`; `decode` never fails on
addresses; `sync` with both addresses empty reports the target-address error. -/
theorem address_requirements (env : Env) (tp : String) (s : State)
    (hpre : (beforeAddressChecks env tp s).err = none) :
    ((∃ e, (sanitizeOptions env tp s).err = some e ∧ e.isAddressError = true) ↔
      (((tp = "restore" ∨ tp = "sync") ∧ s.Options.TargetAddress = "") ∨
        ((tp = "dump" ∨ tp = "sync") ∧ s.Options.SourceAddress = "") ∨
        (tp = "rump" ∧ (s.Options.SourceAddress = "" ∨ s.Options.TargetAddress = "")))) ∧
    (tp = "decode" → ∀ e, (sanitizeOptions env tp s).err = some e → e.isAddressError = false) ∧
    (tp = "sync" → s.Options.SourceAddress = "" → s.Options.TargetAddress = "" →
      (sanitizeOptions env tp s).err = some .targetAddressEmpty) := by
  obtain ⟨hT, hS⟩ := address_frame env tp s
  have hrun : sanitizeOptions env tp s =
      runSteps (stepsFromAddress env tp ++ [getTargetVersion env tp, checkRump env tp])
        (beforeAddressChecks env tp s).st := by
    unfold sanitizeOptions steps beforeAddressChecks at *
    rw [List.append_assoc]
    exact runSteps_append_ok _ _ s hpre
  rw [hrun]
  generalize (beforeAddressChecks env tp s).st = s1 at hT hS
  rw [← hT, ← hS]
  simp only [stepsFromAddress, List.cons_append, List.nil_append]
  have hT' : TypeRestore = "restore" := rfl
  have hS' : TypeSync = "sync" := rfl
  have hD' : TypeDump = "dump" := rfl
  have hR' : TypeRump = "rump" := rfl
  by_cases c1 : (tp = TypeRestore ∨ tp = TypeSync) ∧ s1.Options.TargetAddress = ""
  · have k1 : (checkTargetAddress tp s1).err = some .targetAddressEmpty := by
      simp only [checkTargetAddress, if_pos c1]
    rw [runSteps_cons_err _ _ _ _ k1]
    refine ⟨⟨fun _ => Or.inl c1, fun _ => ⟨_, rfl, rfl⟩⟩, ?_, fun _ _ _ => rfl⟩
    rintro rfl
    exact absurd c1.1 (by decide)
  · have k1 : checkTargetAddress tp s1 = ⟨none, s1⟩ := by
      simp only [checkTargetAddress, if_neg c1]
    rw [runSteps_cons_ok _ _ _ (by rw [k1]), k1]
    by_cases c2 : (tp = TypeDump ∨ tp = TypeSync) ∧ s1.Options.SourceAddress = ""
    · have k2 : (checkSourceAddress tp s1).err = some .sourceAddressEmpty := by
        simp only [checkSourceAddress, if_pos c2]
      rw [runSteps_cons_err _ _ _ _ k2]
      refine ⟨⟨fun _ => Or.inr (Or.inl c2), fun _ => ⟨_, rfl, rfl⟩⟩, ?_, ?_⟩
      · rintro rfl
        exact absurd c2.1 (by decide)
      · intro h _ h3
        exact absurd ⟨Or.inr h, h3⟩ c1
    · have k2 : checkSourceAddress tp s1 = ⟨none, s1⟩ := by
        simp only [checkSourceAddress, if_neg c2]
      rw [runSteps_cons_ok _ _ _ (by rw [k2]), k2]
      by_cases c3 : tp = TypeRump ∧
          (s1.Options.SourceAddress = "" ∨ s1.Options.TargetAddress = "")
      · have k3 : (checkRumpAddress tp s1).err = some .rumpAddressEmpty := by
          simp only [checkRumpAddress, if_pos c3]
        rw [runSteps_cons_err _ _ _ _ k3]
        refine ⟨⟨fun _ => Or.inr (Or.inr c3), fun _ => ⟨_, rfl, rfl⟩⟩, ?_, ?_⟩
        · rintro rfl
          exact absurd c3.1 (by decide)
        · intro h _ h3
          exact absurd ⟨Or.inr h, h3⟩ c1
      · have k3 : checkRumpAddress tp s1 = ⟨none, s1⟩ := by
          simp only [checkRumpAddress, if_neg c3]
        rw [runSteps_cons_ok _ _ _ (by rw [k3]), k3]
        have hlater : ∀ e, (runSteps [checkSourcePassword, checkTargetPassword, setLogFile,
            setLogLevel env, checkHeartbeatInterval, setHeartbeatIp env, setFakeTime env,
            setFilterDB, checkFilterSlot, setTargetDB, checkHttpProfile, checkSystemProfile,
            checkSenderSize, checkSenderCount, setSenderDelayChannelSize,
            getTargetVersion env tp, checkRump env tp] s1).err = some e →
            e.isAddressError = false := by
          intro e he
          obtain ⟨f, hf, t, ht⟩ := runSteps_err_mem _ _ _ he
          exact no_address_error_later env tp f hf t e ht
        refine ⟨⟨?_, ?_⟩, fun _ e he => hlater e he, ?_⟩
        · rintro ⟨e, he, hadr⟩
          rw [hlater e he] at hadr
          cases hadr
        · rintro (h | h | h)
          · exact absurd h c1
          · exact absurd h c2
          · exact absurd h c3
        · intro h _ h3
          exact absurd ⟨Or.inr h, h3⟩ c1

/-- The sample `sync` configuration with both addresses empty passes the first checks. -/
theorem address_requirements_witness :
    ((∃ e, (sanitizeOptions sampleEnv "sync" noAddressState).err = some e ∧
        e.isAddressError = true) ↔
      ((("sync" = "restore" ∨ "sync" = "sync") ∧ noAddressState.Options.TargetAddress = "") ∨
        (("sync" = "dump" ∨ "sync" = "sync") ∧ noAddressState.Options.SourceAddress = "") ∨
        ("sync" = "rump" ∧ (noAddressState.Options.SourceAddress = "" ∨
          noAddressState.Options.TargetAddress = "")))) ∧
    ("sync" = "decode" → ∀ e, (sanitizeOptions sampleEnv "sync" noAddressState).err = some e →
      e.isAddressError = false) ∧
    ("sync" = "sync" → noAddressState.Options.SourceAddress = "" →
      noAddressState.Options.TargetAddress = "" →
      (sanitizeOptions sampleEnv "sync" noAddressState).err = some .targetAddressEmpty) :=
  address_requirements sampleEnv "sync" noAddressState (by decide)

/-- Claim C7, at the failing inputs: `sanitizeOptions` never succeeds with
`SenderSize = 1073741824` or with `SenderCount = 100000`, the upper ends of the intervals
`[0, 1073741824]` and `[0, 100000]` that its own messages state; in the sample
configuration, where every other option is valid (it passes with `SenderSize = 1073741823`
and with `SenderCount = 99999`), it returns exactly these range errors. -/
theorem sender_limits_reject_upper_end :
    (∀ env tp s, s.Options.SenderSize = 1073741824 → (sanitizeOptions env tp s).err ≠ none) ∧
    (∀ env tp s, s.Options.SenderCount = 100000 → (sanitizeOptions env tp s).err ≠ none) ∧
    (sanitizeOptions sampleEnv "sync" senderSizeLimitState).err =
      some (.senderSize 1073741824) ∧
    (sanitizeOptions sampleEnv "sync"
      { sampleState with Options := { sampleOptions with SenderSize := 1073741823 } }).err =
      none ∧
    (sanitizeOptions sampleEnv "sync" senderCountLimitState).err =
      some (.senderCount 100000) ∧
    (sanitizeOptions sampleEnv "sync"
      { sampleState with Options := { sampleOptions with SenderCount := 99999 } }).err =
      none := by
  refine ⟨?_, ?_, by decide, by decide, by decide, by decide⟩
  · intro env tp s hs hok
    have h := (accepted_ranges env tp s hok).1
    omega
  · intro env tp s hs hok
    have h := (accepted_ranges env tp s hok).2.1
    omega

/-- Claim C8, at the failing input: whenever `sanitizeOptions` succeeds from a negative
`Parallel` with `NCpu = 0`, it leaves `Parallel = 0`, outside the range `(0, 1024]` its
message states; the sample configuration with `Parallel = -1` is such a run. -/
theorem parallel_negative_ends_zero :
    (∀ env tp s, s.Options.Parallel < 0 → s.Options.NCpu = 0 →
      (sanitizeOptions env tp s).err = none →
      (sanitizeOptions env tp s).st.Options.Parallel = 0) ∧
    (sanitizeOptions sampleEnv "sync" negativeParallelState).err = none ∧
    (sanitizeOptions sampleEnv "sync" negativeParallelState).st.Options.Parallel = 0 := by
  refine ⟨?_, by decide, by decide⟩
  intro env tp s hP hN hok
  exact (parallel_after env tp s hok).2.2.2.mpr ⟨hP, hN⟩

/-- Claim C9: after a successful `sanitizeOptions` (with `utils.MB` positive) each of
`BigKeyThreshold`, `HeartbeatInterval`, `HttpProfile`, `SystemProfile`, `SenderSize`,
`SenderCount`, `SenderDelayChannelSize` holds its default (50 MB, 10, 9320, 9310, 65535,
1024, 32) if it was 0 on entry and its entry value otherwise, and is not 0; the same for
`ScanKeyNumber` (default 100) when the type is `rump`, and a non-zero `ScanKeyNumber` is
unchanged for every type. -/
theorem defaults_for_unset_options (env : Env) (tp : String) (s : State) (hMB : 0 < env.MB)
    (hok : (sanitizeOptions env tp s).err = none) :
    ((sanitizeOptions env tp s).st.Options.BigKeyThreshold =
        (if s.Options.BigKeyThreshold = 0 then 50 * env.MB else s.Options.BigKeyThreshold) ∧
      (sanitizeOptions env tp s).st.Options.HeartbeatInterval =
        (if s.Options.HeartbeatInterval = 0 then 10 else s.Options.HeartbeatInterval) ∧
      (sanitizeOptions env tp s).st.Options.HttpProfile =
        (if s.Options.HttpProfile = 0 then 9320 else s.Options.HttpProfile) ∧
      (sanitizeOptions env tp s).st.Options.SystemProfile =
        (if s.Options.SystemProfile = 0 then 9310 else s.Options.SystemProfile) ∧
      (sanitizeOptions env tp s).st.Options.SenderSize =
        (if s.Options.SenderSize = 0 then 65535 else s.Options.SenderSize) ∧
      (sanitizeOptions env tp s).st.Options.SenderCount =
        (if s.Options.SenderCount = 0 then 1024 else s.Options.SenderCount) ∧
      (sanitizeOptions env tp s).st.Options.SenderDelayChannelSize =
        (if s.Options.SenderDelayChannelSize = 0 then 32
          else s.Options.SenderDelayChannelSize) ∧
      (tp = "rump" → (sanitizeOptions env tp s).st.Options.ScanKeyNumber =
        (if s.Options.ScanKeyNumber = 0 then 100 else s.Options.ScanKeyNumber)) ∧
      (s.Options.ScanKeyNumber ≠ 0 →
        (sanitizeOptions env tp s).st.Options.ScanKeyNumber = s.Options.ScanKeyNumber)) ∧
    ((sanitizeOptions env tp s).st.Options.BigKeyThreshold ≠ 0 ∧
      (sanitizeOptions env tp s).st.Options.HeartbeatInterval ≠ 0 ∧
      (sanitizeOptions env tp s).st.Options.HttpProfile ≠ 0 ∧
      (sanitizeOptions env tp s).st.Options.SystemProfile ≠ 0 ∧
      (sanitizeOptions env tp s).st.Options.SenderSize ≠ 0 ∧
      (sanitizeOptions env tp s).st.Options.SenderCount ≠ 0 ∧
      (sanitizeOptions env tp s).st.Options.SenderDelayChannelSize ≠ 0 ∧
      (tp = "rump" → (sanitizeOptions env tp s).st.Options.ScanKeyNumber ≠ 0)) := by
  have hnz := nonzero_after env tp s (ne_of_gt hMB) hok
  obtain ⟨n1, n2, n3, n4, n5, n6, n7, n8⟩ := hnz
  obtain ⟨r1, r2, r3, r4, r5, r6, r7, r8⟩ := defaults_rel env tp s
  refine ⟨⟨keepOrDefault_resolve _ _ _ r1 n1, keepOrDefault_resolve _ _ _ r2 n2,
    keepOrDefault_resolve _ _ _ r3 n3, keepOrDefault_resolve _ _ _ r4 n4,
    keepOrDefault_resolve _ _ _ r5 n5, keepOrDefault_resolve _ _ _ r6 n6,
    keepOrDefault_resolve _ _ _ r7 n7, ?_, ?_⟩, n1, n2, n3, n4, n5, n6, n7, n8⟩
  · intro htp
    refine keepOrDefault_resolve _ _ _ ?_ (n8 htp)
    rcases r8 with h | ⟨_, h1, h2⟩
    · exact Or.inl h
    · exact Or.inr ⟨h1, h2⟩
  · intro hne
    rcases r8 with h | ⟨_, h1, _⟩
    · exact h
    · exact absurd h1 hne

/-- The sample configuration sets none of the options; as a `rump` run it passes. -/
theorem defaults_for_unset_options_witness :
    (sanitizeOptions sampleEnv "rump" sampleState).st.Options.BigKeyThreshold ≠ 0 ∧
    (sanitizeOptions sampleEnv "rump" sampleState).st.Options.HeartbeatInterval ≠ 0 ∧
    (sanitizeOptions sampleEnv "rump" sampleState).st.Options.HttpProfile ≠ 0 ∧
    (sanitizeOptions sampleEnv "rump" sampleState).st.Options.SystemProfile ≠ 0 ∧
    (sanitizeOptions sampleEnv "rump" sampleState).st.Options.SenderSize ≠ 0 ∧
    (sanitizeOptions sampleEnv "rump" sampleState).st.Options.SenderCount ≠ 0 ∧
    (sanitizeOptions sampleEnv "rump" sampleState).st.Options.SenderDelayChannelSize ≠ 0 ∧
    ("rump" = "rump" →
      (sanitizeOptions sampleEnv "rump" sampleState).st.Options.ScanKeyNumber ≠ 0) :=
  (defaults_for_unset_options sampleEnv "rump" sampleState (by decide) (by decide)).2

end RedisShake
